import Mathlib

/-!
# Ambari web client: cluster bootstrap barrier and bulk host operations

A shallow embedding of
* `ambari-web/app/controllers/global/cluster_controller.js` (`App.ClusterController`), and
* `ambari-web/app/controllers/main/host/bulk_operations_controller.js`
  (`App.BulkOperationsController`),

followed by theorems about the embedded functions.

Conventions of the embedding.
* An Ember object with boolean own properties is an association list in insertion order
  (the order in which `for ... in` enumerates the properties).
* A JavaScript value that may be `null`/`undefined` is an `Option`.
* A controller method that only performs effects is a function returning the effect it
  performs (`Outcome`), or the list of the calls it makes.
-/

namespace Ambari

/-! ## `App.ClusterController`: load status -/

/-- An Ember object whose own properties hold booleans: keys in insertion order. -/
abbrev LoadList := List (String × Bool)

/-- `loadList.set(item, value)` for a plain property name `item` (`plainKey` below): overwrite
the property when the object has it, define it (last in enumeration order) when it has not.
For a dotted name Ember's `set` follows a property path, and a key that is an array index is
enumerated before the other keys; the registered keys are plain. -/
def LoadList.set : LoadList → String → Bool → LoadList
  | [], item, value => [(item, value)]
  | (k, v) :: rest, item, value =>
    if k = item then (k, value) :: rest else (k, v) :: LoadList.set rest item value

/-- The fields of `App.ClusterController` read or written by `updateLoadStatus`. -/
structure ClusterController where
  isLoaded : Bool
  dataLoadList : LoadList
deriving DecidableEq, Repr

/-- The seven keys of `dataLoadList`, in declaration order. -/
def registeredKeys : List String :=
  ["hosts", "runs", "services", "cluster", "racks", "alerts", "users"]

/-- The controller as declared: `isLoaded: false` and every `dataLoadList` entry `false`. -/
def ClusterController.initial : ClusterController :=
  { isLoaded := false
    dataLoadList :=
      [("hosts", false), ("runs", false), ("services", false), ("cluster", false),
       ("racks", false), ("alerts", false), ("users", false)] }

/-- One iteration of the `for (var i in loadList)` loop of `updateLoadStatus`:
`if (loadList.hasOwnProperty(i) && !loadList[i] && loaded) loaded = false`. -/
def updateLoadStatusStep (loaded : Bool) (entry : String × Bool) : Bool :=
  if !entry.2 && loaded then false else loaded

/-- The method `updateLoadStatus(item)`. -/
def updateLoadStatus (c : ClusterController) (item : String) : ClusterController :=
  let loadList := c.dataLoadList.set item true
  let loaded := loadList.foldl updateLoadStatusStep true
  { isLoaded := loaded, dataLoadList := loadList }

/-- A sequence of `updateLoadStatus` calls, in order. -/
def runUpdates (c : ClusterController) (items : List String) : ClusterController :=
  items.foldl updateLoadStatus c

/-! ## `App.ClusterController.loadClusterData`: the two service fetches -/

/-- The block `ServiceComponentInfo` of a component record: its `component_name` and its
remaining fields. -/
structure ComponentInfo where
  component_name : String
  fields : List (String × String)
deriving DecidableEq, Repr

/-- A record of `svc.components`. -/
structure ComponentJson where
  ServiceComponentInfo : ComponentInfo
  host_components : List String
deriving DecidableEq, Repr

/-- The block `ServiceInfo` of a service record. -/
structure ServiceInfoJson where
  service_name : String
deriving DecidableEq, Repr

/-- A record of `json.items`. -/
structure ServiceJson where
  ServiceInfo : ServiceInfoJson
  components : List ComponentJson
deriving DecidableEq, Repr

/-- The payload of either service fetch. -/
structure ServicesJson where
  items : List ServiceJson
deriving DecidableEq, Repr

/-- The loop `xs.forEach(function (x) { if (p(x)) { v = x; } })`, started at position `i` with
`v` holding `acc`: each matching element overwrites the variable. The element is named by
its position, since the code later assigns to a field of the object it selected. -/
def lastIdxFrom {α : Type} (p : α → Bool) : Nat → List α → Option Nat → Option Nat
  | _, [], acc => acc
  | i, x :: xs, acc => lastIdxFrom p (i + 1) xs (if p x then some i else acc)

/-- The variable after the loop, `null` before it. -/
def lastIdx {α : Type} (p : α → Bool) (xs : List α) : Option Nat :=
  lastIdxFrom p 0 xs none

/-- The two loops that select a component of a payload, e.g. `hdfsSvc1` then `nnC1`: the
service with the given `service_name`, then (`if (hdfsSvc1)`) its component with the given
`component_name`. The result is the position (service, component) of the selected object. -/
def selectComponent (json : ServicesJson) (serviceName componentName : String) :
    Option (Nat × Nat) :=
  match lastIdx (fun svc => svc.ServiceInfo.service_name == serviceName) json.items with
  | none => none
  | some i =>
    match json.items[i]? with
    | none => none
    | some svc =>
      match lastIdx (fun c => c.ServiceComponentInfo.component_name == componentName)
          svc.components with
      | none => none
      | some j => some (i, j)

/-- The component object at a position of a payload. -/
def componentAt (json : ServicesJson) (r : Nat × Nat) : Option ComponentJson :=
  match json.items[r.1]? with
  | none => none
  | some svc => svc.components[r.2]?

/-- The statement `if (c1 && c2) { c1.ServiceComponentInfo = c2.ServiceComponentInfo; }`, where
`c1` is an object of the payload `json`. -/
def assignServiceComponentInfo (json : ServicesJson) (c1 : Option (Nat × Nat))
    (c2 : Option ComponentJson) : ServicesJson :=
  match c1, c2 with
  | some (i, j), some c =>
    { items := json.items.modify
        (fun svc => { svc with
          components := svc.components.modify
            (fun c1 => { c1 with ServiceComponentInfo := c.ServiceComponentInfo }) j }) i }
  | _, _ => json

/-- The body of the `if (metricsJson != null && serviceComponentJson != null)` of
`serviceComponentMapper.map` up to the three assignments: the value of `metricsJson` that is
handed to `App.servicesMapper.map`. -/
def mergeServiceComponentInfo (metricsJson serviceComponentJson : ServicesJson) : ServicesJson :=
  let nnC1 := selectComponent metricsJson "HDFS" "NAMENODE"
  let nnC2 := (selectComponent serviceComponentJson "HDFS" "NAMENODE").bind
    (componentAt serviceComponentJson)
  let jtC1 := selectComponent metricsJson "MAPREDUCE" "JOBTRACKER"
  let jtC2 := (selectComponent serviceComponentJson "MAPREDUCE" "JOBTRACKER").bind
    (componentAt serviceComponentJson)
  let hbm1 := selectComponent metricsJson "HBASE" "HBASE_MASTER"
  let hbm2 := (selectComponent serviceComponentJson "HBASE" "HBASE_MASTER").bind
    (componentAt serviceComponentJson)
  let merged := assignServiceComponentInfo metricsJson nnC1 nnC2
  let merged := assignServiceComponentInfo merged jtC1 jtC2
  assignServiceComponentInfo merged hbm1 hbm2

/-- The three kinds of component whose block is overwritten: (service name, component name). -/
def mergedKinds : List (String × String) :=
  [("HDFS", "NAMENODE"), ("MAPREDUCE", "JOBTRACKER"), ("HBASE", "HBASE_MASTER")]

/-- A call made by `serviceComponentMapper.map` to a collaborator. -/
inductive ServicesCall where
  /-- The call `App.servicesMapper.map(metricsJson)`. -/
  | servicesMapperMap (json : ServicesJson)
  /-- The call `self.updateLoadStatus(item)`. -/
  | updateLoadStatus (item : String)
deriving DecidableEq, Repr

/-- The closure state of `loadClusterData` shared by the two mappers: the two variables, the
controller `self`, and the calls made so far. -/
structure ServicesLoad where
  metricsJson : Option ServicesJson
  serviceComponentJson : Option ServicesJson
  controller : ClusterController
  calls : List ServicesCall
deriving DecidableEq, Repr

/-- The state at `var metricsJson = null; var serviceComponentJson = null;`. -/
def ServicesLoad.start (c : ClusterController) : ServicesLoad :=
  { metricsJson := none, serviceComponentJson := none, controller := c, calls := [] }

/-- The handler `metricsMapper.map(data)`. -/
def metricsMapper.map (st : ServicesLoad) (data : Option ServicesJson) : ServicesLoad :=
  { st with metricsJson := data }

/-- The handler `serviceComponentMapper.map(data)`. -/
def serviceComponentMapper.map (st : ServicesLoad) (data : Option ServicesJson) :
    ServicesLoad :=
  match st.metricsJson, data with
  | some metricsJson, some serviceComponentJson =>
    let merged := mergeServiceComponentInfo metricsJson serviceComponentJson
    { metricsJson := some merged
      serviceComponentJson := some serviceComponentJson
      controller := updateLoadStatus st.controller "services"
      calls := st.calls ++
        [ServicesCall.servicesMapperMap merged, ServicesCall.updateLoadStatus "services"] }
  | _, _ => { st with serviceComponentJson := data }

/-- A completion of one of the two service fetches, with the payload it delivers. -/
inductive ServicesCompletion where
  | metrics (data : Option ServicesJson)
  | serviceComponent (data : Option ServicesJson)
deriving DecidableEq, Repr

/-- The handler run by a completion. -/
def ServicesLoad.complete (st : ServicesLoad) : ServicesCompletion → ServicesLoad
  | ServicesCompletion.metrics data => metricsMapper.map st data
  | ServicesCompletion.serviceComponent data => serviceComponentMapper.map st data

/-- The handlers of a sequence of completions, in order. -/
def ServicesLoad.run (st : ServicesLoad) (cs : List ServicesCompletion) : ServicesLoad :=
  cs.foldl ServicesLoad.complete st

/-! ## `App.BulkOperationsController`: data -/

/-- The object `operationData` of a bulk operation. -/
structure OperationData where
  action : String
  componentName : Option String
  realComponentName : Option String
  componentNameFormatted : Option String
  serviceName : Option String
  message : String
  state : Option String
deriving DecidableEq, Repr

/-- A host of the selection, with the field the controller reads. -/
structure Host where
  hostName : String
deriving DecidableEq, Repr

/-- Truthiness of a value that is a string or `undefined`: `if (v)`. -/
def truthy : Option String → Bool
  | some s => s != ""
  | none => false

/-- The string a value contributes to a concatenation `'...' + v`. -/
def jsString : Option String → String
  | some s => s
  | none => "undefined"

/-- `Array.prototype.join` on an array of strings. -/
def join (xs : List String) (separator : String) : String :=
  separator.intercalate xs

/-- `Array.prototype.join` on an array whose elements may be `undefined`: such an element
contributes the empty string. -/
def joinOpt (xs : List (Option String)) (separator : String) : String :=
  separator.intercalate (xs.map (fun x => x.getD ""))

/-- `String.prototype.indexOf` from position `i` of the subject: the position of the first
occurrence of `pattern`, `-1` when there is none. -/
def indexOfFrom (pattern : List Char) : List Char → Nat → Int
  | [], i => if pattern.isEmpty then (i : Int) else -1
  | c :: cs, i =>
    if pattern.isPrefixOf (c :: cs) then (i : Int) else indexOfFrom pattern cs (i + 1)

/-- `s.indexOf(pattern)`. -/
def indexOf (s pattern : String) : Int :=
  indexOfFrom pattern.data s.data 0

/-- `String.prototype.toLowerCase`, on the ASCII letters of component names. -/
def toLowerCase (s : String) : String :=
  String.mk (s.data.map Char.toLower)

/-- The block `HostRoles` of a host-component record of a read-query response. -/
structure HostRolesJson where
  component_name : String
  state : Option String
  stale_configs : Option Bool
  maintenance_state : Option String
deriving DecidableEq, Repr

/-- A record of `host.host_components`. -/
structure HostComponentJson where
  HostRoles : HostRolesJson
deriving DecidableEq, Repr

/-- The block `Hosts` of a host record. -/
structure HostsJson where
  host_name : String
  maintenance_state : Option String
deriving DecidableEq, Repr

/-- A record of `data.items`. -/
structure HostJson where
  Hosts : HostsJson
  host_components : List HostComponentJson
deriving DecidableEq, Repr

/-- The response `data` of the read query `batchUtils.getComponentsFromServer`. -/
structure ComponentsResponse where
  items : Option (List HostJson)
deriving DecidableEq, Repr

/-- A record of `App.Service`, with the attributes the controller reads. -/
structure ServiceRecord where
  serviceName : Option String
  displayName : Option String
  workStatus : Option String
  passiveState : Option String
deriving DecidableEq, Repr

/-- The collaborators the controller reads from: the list `App.components.get('clients')`,
the store lookup `App.Service.find(id)`, the localization `Em.I18n.t(key)` and the string
method `format`. -/
structure Env where
  clients : List String
  service : Option String → ServiceRecord
  t : String → String
  format : String → List String → String

/-- The object `{RequestInfo: {query}, Body: {host_components: [{HostRoles:
{component_name}}]}}` that `bulkAddHostComponents` serializes. -/
structure AddComponentsBody where
  query : String
  component_name : Option String
deriving DecidableEq, Repr

/-- A value of the `data` object of a request. -/
inductive Val where
  | undefined
  | str (s : String)
  | list (xs : List (Option String))
  | obj (fields : List (String × String))
  | stringify (body : AddComponentsBody)
deriving DecidableEq, Repr

/-- An optional string as a value. -/
def Val.ofOption : Option String → Val
  | some s => Val.str s
  | none => Val.undefined

/-- The argument of `App.ajax.send`; the sender is always the controller. -/
structure AjaxRequest where
  name : String
  data : List (String × Val)
  success : Option String
  error : Option String
  showLoadingPopup : Bool
deriving DecidableEq, Repr

/-- The error block of a delete result. -/
structure ErrorInfo where
  key : Option String
  code : Option Int
  message : Option String
deriving DecidableEq, Repr

/-- The field `deleted` of a delete result: absent, a boolean, or an object with a `key`. -/
inductive DeletedField where
  | absent
  | bool (b : Bool)
  | info (key : Option String)
deriving DecidableEq, Repr

/-- Truthiness of the field: `if (host.deleted)`. -/
def DeletedField.truthy : DeletedField → Bool
  | DeletedField.absent => false
  | DeletedField.bool b => b
  | DeletedField.info _ => true

/-- The property path `deleted.key` of a delete result. -/
def DeletedField.key : DeletedField → Option String
  | DeletedField.info key => key
  | _ => none

/-- An entry of `data.deleteResult`. -/
structure DeleteResultEntry where
  host_name : Option String
  deleted : DeletedField
  error : Option ErrorInfo
deriving DecidableEq, Repr

/-- The object created for a host that cannot be deleted; `isBodyVisible` is computed from
`isCollapsed`. -/
structure UndeletableHost where
  error : Option ErrorInfo
  isCollapsed : Bool
deriving DecidableEq, Repr

/-- A structured delete response. -/
structure DeleteResponse where
  deleteResult : List DeleteResultEntry
deriving DecidableEq, Repr

/-- The object parsed from `request.responseText` of a failed request. -/
structure ErrorResponse where
  status : Option Int
  message : Option String
deriving DecidableEq, Repr

/-- The `params` of a delete request: the `data` it was sent with. -/
structure DeleteParams where
  hosts : List String
deriving DecidableEq, Repr

/-- The arguments `(arg0, ..., arg4)` of a delete callback. As success callback it receives
`(data, opt, params)`; as error callback `(request, textStatus, error, opt, params)`, where
`responseText` is `none` when the text of the response is not JSON. -/
inductive DeleteCallbackArgs where
  | success (data : Option DeleteResponse) (params : DeleteParams)
  | error (textStatus : String) (responseText : Option ErrorResponse) (params : DeleteParams)
deriving DecidableEq, Repr

/-- The object built from a host-component by the decommission callback. -/
structure ComponentStatus where
  componentName : String
  hostName : String
  workStatus : Option String
deriving DecidableEq, Repr

/-- The object built from a host-component by the host restart callback. -/
structure HostComponentRef where
  componentName : String
  hostName : String
deriving DecidableEq, Repr

/-- The object built from a host-component by the host-component restart callback. -/
structure WrappedHostComponent where
  componentName : String
  serviceName : Option String
  hostName : String
  hostPassiveState : Option String
  staleConfigs : Option Bool
  passiveState : Option String
deriving DecidableEq, Repr

/-- What a method of the controller does: the request it sends, the popup it shows, or the
collaborator it calls. A callback handed to a popup or to a collaborator is given by what
it does when it is run. -/
inductive Outcome where
  /-- The call `App.ajax.send(request)`. -/
  | ajaxSend (request : AjaxRequest)
  /-- The call `App.ModalPopup.show` with `header`, `body` and `secondary: false`. -/
  | modalPopup (header body : String)
  /-- The confirmation popup of the add-component workflow. -/
  | addConfirmPopup (header hostNames visibleHosts hostNamesSkippedVisible : String)
      (hostNamesSkipped : Option String) (message warningInfo : String) (onPrimary : Outcome)
  /-- The popup shown after a dry run that found undeletable hosts. -/
  | deleteDryRunPopup (header : String) (primary : Option String) (message : String)
      (undeletableHosts : List UndeletableHost) (onPrimary : Outcome)
  /-- The confirmation popup of the delete workflow. -/
  | deleteConfirmPopup (header : String) (hosts : List DeleteResultEntry) (onPrimary : Outcome)
  /-- The result popup of the delete workflow. -/
  | deleteResultPopup (header message : String) (undeletableHosts : List UndeletableHost)
      (deletedHosts : List DeleteResultEntry)
  /-- The call `mainAdminKerberosController.getKDCSessionState(callback)`. -/
  | getKDCSessionState (callback : Outcome)
  /-- The call `mainHostDetailsController.checkNnLastCheckpointTime(callback, hostName)`. -/
  | checkNnLastCheckpointTime (callback : Outcome) (hostName : Option String)
  /-- The call `mainServiceItemController.checkNnLastCheckpointTime(callback)`. -/
  | checkNnLastCheckpointTimeHA (callback : Outcome)
  /-- The call `mainHostDetailsController.doRecommissionAndStart(...)`. -/
  | doRecommissionAndStart (hostNames : String) (svcName masterName slaveName : Option String)
  /-- The call `mainHostDetailsController.showHbaseActiveWarning()`. -/
  | showHbaseActiveWarning
  /-- The call `mainHostDetailsController.checkRegionServerState(hostNames)`. -/
  | checkRegionServerState (hostNames : String)
  /-- The call `batchUtils.restartHostComponents(hostComponents, context, level)`. -/
  | restartHostComponents (hostComponents : List HostComponentRef) (context level : String)
  /-- The call `batchUtils.showRollingRestartPopup(...)`. -/
  | showRollingRestartPopup (componentName : String) (displayName : Option String)
      (isPassive staleConfigsOnly : Bool) (hostComponents : List WrappedHostComponent)
  /-- The call `userSettingsController.dataLoading(key).done(callback)`, where the callback
  does `onTruthy` when the value it receives is truthy and nothing otherwise. -/
  | dataLoading (key : String) (onTruthy : Outcome)
  /-- The call `backgroundOperationsController.showPopup()`. -/
  | showBackgroundOperationsPopup
  /-- Nothing is sent, shown or called. -/
  | noEffect
  /-- An exception is thrown before anything is sent, shown or called. -/
  | threw
deriving DecidableEq, Repr

/-! ## `App.BulkOperationsController`: `bulkOperation` -/

/-- The nine methods `bulkOperation` routes to. -/
inductive Handler where
  | bulkOperationForHostComponentsRestart
  | bulkOperationForHostComponentsAdd
  | bulkOperationForHostComponentsDecommission
  | bulkOperationForHostComponents
  | bulkOperationForHostsSetRackInfo
  | bulkOperationForHostsRestart
  | bulkOperationForHostsReinstall
  | bulkOperationForHostsPassiveState
  | bulkOperationForHosts
deriving DecidableEq, Repr

/-- A call `this.handler(operationData, hosts)`. -/
structure HandlerCall where
  handler : Handler
  operationData : OperationData
  hosts : List Host
deriving DecidableEq, Repr

/-- The method `bulkOperation(operationData, hosts)`: the calls it makes. -/
def bulkOperation (operationData : OperationData) (hosts : List Host) : List HandlerCall :=
  if truthy operationData.componentNameFormatted then
    if operationData.action = "RESTART" then
      [⟨Handler.bulkOperationForHostComponentsRestart, operationData, hosts⟩]
    else if operationData.action = "ADD" then
      [⟨Handler.bulkOperationForHostComponentsAdd, operationData, hosts⟩]
    else
      if indexOf operationData.action "DECOMMISSION" = -1 then
        [⟨Handler.bulkOperationForHostComponents, operationData, hosts⟩]
      else
        [⟨Handler.bulkOperationForHostComponentsDecommission, operationData, hosts⟩]
  else
    if operationData.action = "SET_RACK_INFO" then
      [⟨Handler.bulkOperationForHostsSetRackInfo, operationData, hosts⟩]
    else
      if operationData.action = "RESTART" then
        [⟨Handler.bulkOperationForHostsRestart, operationData, hosts⟩]
      else if operationData.action = "REINSTALL" then
        [⟨Handler.bulkOperationForHostsReinstall, operationData, hosts⟩]
      else
        if operationData.action = "PASSIVE_STATE" then
          [⟨Handler.bulkOperationForHostsPassiveState, operationData, hosts⟩]
        else
          [⟨Handler.bulkOperationForHosts, operationData, hosts⟩]

/-- The two scopes of a bulk operation. -/
inductive Scope where
  | component
  | host
deriving DecidableEq, Repr

/-- The scope `bulkOperation` gives a request: the test `if
(operationData.componentNameFormatted)`. -/
def scopeOf (operationData : OperationData) : Scope :=
  if truthy operationData.componentNameFormatted then Scope.component else Scope.host

/-- The scope of a handler: the four host-component handlers and the five host handlers. -/
def Handler.scope : Handler → Scope
  | Handler.bulkOperationForHostComponentsRestart => Scope.component
  | Handler.bulkOperationForHostComponentsAdd => Scope.component
  | Handler.bulkOperationForHostComponentsDecommission => Scope.component
  | Handler.bulkOperationForHostComponents => Scope.component
  | _ => Scope.host

/-- A row of the routing table of the specification: scope, action pattern, handler. -/
structure RoutingRow where
  scope : Scope
  pattern : String → Bool
  handler : Handler

/-- The routing table as the specification words it, row by row. -/
def routingTable : List RoutingRow :=
  [ ⟨Scope.component, fun a => a == "RESTART", Handler.bulkOperationForHostComponentsRestart⟩,
    ⟨Scope.component, fun a => a == "ADD", Handler.bulkOperationForHostComponentsAdd⟩,
    ⟨Scope.component, fun a => decide ("DECOMMISSION".data <:+: a.data),
      Handler.bulkOperationForHostComponentsDecommission⟩,
    ⟨Scope.component, fun _ => true, Handler.bulkOperationForHostComponents⟩,
    ⟨Scope.host, fun a => a == "SET_RACK_INFO", Handler.bulkOperationForHostsSetRackInfo⟩,
    ⟨Scope.host, fun a => a == "RESTART", Handler.bulkOperationForHostsRestart⟩,
    ⟨Scope.host, fun a => a == "REINSTALL", Handler.bulkOperationForHostsReinstall⟩,
    ⟨Scope.host, fun a => a == "PASSIVE_STATE", Handler.bulkOperationForHostsPassiveState⟩,
    ⟨Scope.host, fun _ => true, Handler.bulkOperationForHosts⟩ ]

/-- The handler of the first row of the routing table that matches a scope and an action. -/
def firstMatch (scope : Scope) (action : String) : Option Handler :=
  (routingTable.find? (fun row => decide (row.scope = scope) && row.pattern action)).map
    (fun row => row.handler)

/-! ## `App.BulkOperationsController`: callbacks of the read query -/

/-- The popup `App.ModalPopup.show` with header `rolling.nothingToDo.header`, the given body
and `secondary: false`. -/
def nothingToDo (env : Env) (body : String) : Outcome :=
  Outcome.modalPopup (env.t "rolling.nothingToDo.header") body

/-- The update of `hostsMap` in `_getComponentsFromServerForHostsCallback`: push onto the
array of the host when the map has one, define it when it has not. The map keeps its keys in
insertion order, the order in which `for (var hostName in hostsMap)` visits them, for host
names that are ordinary (`ordinaryHostName` below): a name that is an array index is visited
before the others, and a name that every object inherits, such as `constructor`, is found in
the map before it is put there. -/
def hostsMapPush : List (String × List String) → String → String → List (String × List String)
  | [], hostName, componentName => [(hostName, [componentName])]
  | (h, cs) :: rest, hostName, componentName =>
    if h = hostName then (h, cs ++ [componentName]) :: rest
    else (h, cs) :: hostsMapPush rest hostName componentName

/-- The map `hostsMap` after the loop over `data.items`: per host, its non-client
components. -/
def buildHostsMap (clients : List String) (items : List HostJson) :
    List (String × List String) :=
  items.foldl (fun hostsMap host =>
    host.host_components.foldl (fun hostsMap hostComponent =>
      if !clients.contains hostComponent.HostRoles.component_name then
        hostsMapPush hostsMap host.Hosts.host_name hostComponent.HostRoles.component_name
      else hostsMap) hostsMap) []

/-- The variables `query`, `nn_hosts` and `hostNames` of
`_getComponentsFromServerForHostsCallback`. -/
structure HostsQuery where
  query : List String
  nn_hosts : List String
  hostNames : List String
deriving DecidableEq, Repr

/-- One iteration of `for (var hostName in hostsMap)`; `subQuery.fmt(...)` puts the joined
components in the place of `%@`. -/
def hostsQueryStep (acc : HostsQuery) (entry : String × List String) : HostsQuery :=
  let hostName := entry.1
  let components := entry.2
  let acc :=
    if components.length ≠ 0 then
      let acc :=
        if components.contains "NAMENODE" then { acc with nn_hosts := acc.nn_hosts ++ [hostName] }
        else acc
      { acc with query := acc.query ++
          ["(HostRoles/component_name.in(" ++ join components "," ++
            ")&HostRoles/host_name=" ++ hostName ++ ")"] }
    else acc
  { acc with hostNames := acc.hostNames ++ [hostName] }

/-- The request function `request` of `_getComponentsFromServerForHostsCallback`. -/
def hostsUpdateRequest (env : Env) (operationData : OperationData) (query hostNames : String) :
    Outcome :=
  Outcome.ajaxSend
    { name := "common.host_components.update"
      data :=
        [("query", Val.str query),
         ("HostRoles", Val.obj [("state", operationData.action)]),
         ("context", Val.str operationData.message),
         ("hostName", Val.str hostNames),
         ("noOpsMessage", Val.str (env.t "hosts.host.maintainance.allComponents.context"))]
      success := some "bulkOperationForHostComponentsSuccessCallback"
      error := none
      showLoadingPopup := false }

/-- The method `_getComponentsFromServerForHostsCallback(operationData, data)`. -/
def _getComponentsFromServerForHostsCallback (env : Env) (operationData : OperationData)
    (data : ComponentsResponse) : Outcome :=
  match data.items with
  | none => Outcome.threw
  | some items =>
    let hostsMap := buildHostsMap env.clients items
    let vars := hostsMap.foldl hostsQueryStep { query := [], nn_hosts := [], hostNames := [] }
    let hostNames := join vars.hostNames ","
    if vars.query.length ≠ 0 then
      let query := join vars.query "|"
      let isHDFSStarted := decide (some "STARTED" = (env.service (some "HDFS")).workStatus)
      let request := hostsUpdateRequest env operationData query hostNames
      if operationData.action = "INSTALLED" ∧ isHDFSStarted = true then
        if vars.nn_hosts.length = 1 then
          Outcome.checkNnLastCheckpointTime request vars.nn_hosts[0]?
        else if vars.nn_hosts.length = 2 then
          Outcome.checkNnLastCheckpointTimeHA request
        else request
      else request
    else
      nothingToDo env (env.format (env.t "rolling.nothingToDo.body")
        [env.t "hosts.host.maintainance.allComponents.context"])

/-- The method `_getComponentsFromServerForRestartCallback(data)`. -/
def _getComponentsFromServerForRestartCallback (env : Env) (data : ComponentsResponse) :
    Outcome :=
  match data.items with
  | none => Outcome.threw
  | some items =>
    let hostComponents : List HostComponentRef :=
      items.foldl (fun acc host =>
        host.host_components.foldl (fun acc hostComponent =>
          acc ++ [{ componentName := hostComponent.HostRoles.component_name,
                    hostName := host.Hosts.host_name }]) acc) []
    let isHDFSStarted := decide (some "STARTED" = (env.service (some "HDFS")).workStatus)
    let namenodes := hostComponents.filter (fun c => c.componentName = "NAMENODE")
    let nn_count := namenodes.length
    let restart := Outcome.restartHostComponents hostComponents
      (env.t "rollingrestart.context.allOnSelectedHosts") "HOST"
    if nn_count = 1 ∧ isHDFSStarted = true then
      Outcome.checkNnLastCheckpointTime restart (namenodes.head?.map (fun c => c.hostName))
    else
      if nn_count = 2 ∧ isHDFSStarted = true then
        Outcome.checkNnLastCheckpointTimeHA restart
      else restart

/-- The method `_getComponentsFromServerForPassiveStateCallback(operationData, data)`. -/
def _getComponentsFromServerForPassiveStateCallback (env : Env) (operationData : OperationData)
    (data : ComponentsResponse) : Outcome :=
  match data.items with
  | none => Outcome.threw
  | some items =>
    let hostNames := items.foldl (fun hostNames host =>
      if host.Hosts.maintenance_state ≠ operationData.state then
        hostNames ++ [host.Hosts.host_name]
      else hostNames) []
    if hostNames.length ≠ 0 then
      Outcome.ajaxSend
        { name := "bulk_request.hosts.passive_state"
          data :=
            [("hostNames", Val.str (join hostNames ",")),
             ("passive_state", Val.ofOption operationData.state),
             ("requestInfo", Val.str operationData.message)]
          success := some "updateHostPassiveState"
          error := none
          showLoadingPopup := false }
    else
      nothingToDo env (env.t "hosts.bulkOperation.passiveState.nothingToDo.body")

/-- The method `_showHostNames(hostNames, divider, minShown)`. -/
def _showHostNames (env : Env) (hostNames : List String) (divider : String) (minShown : Nat) :
    String :=
  if hostNames.length > minShown then
    join (hostNames.take minShown) divider ++ divider ++
      env.format (env.t "installer.step8.other") [toString (hostNames.length - minShown)]
  else join hostNames divider

/-- The method `bulkAddHostComponents(operationData, hostNames)`. -/
def bulkAddHostComponents (operationData : OperationData) (hostNames : List String) : Outcome :=
  Outcome.getKDCSessionState
    (Outcome.ajaxSend
      { name := "host.host_component.add_new_components"
        data :=
          [("data", Val.stringify
              { query := "Hosts/host_name.in(" ++ join hostNames "," ++ ")"
                component_name := operationData.componentName }),
           ("context", Val.str (operationData.message ++ " " ++
              jsString operationData.componentNameFormatted))]
        success := some "bulkOperationForHostComponentsAddSuccessCallback"
        error := none
        showLoadingPopup := true })

/-- The method `_getComponentsFromServerForHostComponentsAddCallback(operationData, data,
hosts)`. -/
def _getComponentsFromServerForHostComponentsAddCallback (env : Env)
    (operationData : OperationData) (data : ComponentsResponse) (hosts : List Host) : Outcome :=
  match data.items with
  | none => Outcome.threw
  | some items =>
    let hosts := hosts.map (fun h => h.hostName)
    let allHostsWithComponent := items.map (fun h => h.Hosts.host_name)
    let hostsWithComponent := hosts.filter (fun host => allHostsWithComponent.contains host)
    let hostsWithOutComponent := hosts.filter (fun host => !hostsWithComponent.contains host)
    let minShown := 3
    if hostsWithOutComponent.length ≠ 0 then
      Outcome.addConfirmPopup
        (env.t "hosts.bulkOperation.confirmation.header")
        (join hostsWithOutComponent "\n")
        (_showHostNames env hostsWithOutComponent "\n" minShown)
        (_showHostNames env hostsWithComponent "\n" minShown)
        (if hostsWithComponent.length ≠ 0 then some (join hostsWithComponent "\n") else none)
        (env.format (env.t "hosts.bulkOperation.confirmation.add.component")
          [operationData.message, jsString operationData.componentNameFormatted,
           toString hostsWithOutComponent.length])
        (env.format (env.t "hosts.bulkOperation.confirmation.add.component.skip")
          [jsString operationData.componentNameFormatted])
        (bulkAddHostComponents operationData hostsWithOutComponent)
    else
      nothingToDo env
        (env.format (env.t "hosts.bulkOperation.confirmation.add.component.nothingToDo.body")
          [jsString operationData.componentNameFormatted])

/-- The method `_getComponentsFromServerForHostComponentsCallback(operationData, data)`; the
test `if (data.items)` holds for every array, the empty one included. -/
def _getComponentsFromServerForHostComponentsCallback (env : Env)
    (operationData : OperationData) (data : ComponentsResponse) : Outcome :=
  match data.items with
  | some items =>
    let hostsWithComponentInProperState := items.map (fun h => h.Hosts.host_name)
    Outcome.ajaxSend
      { name := "common.host_components.update"
        data :=
          [("HostRoles", Val.obj [("state", operationData.action)]),
           ("query", Val.str ("HostRoles/component_name=" ++ jsString operationData.componentName
              ++ "&HostRoles/host_name.in(" ++ join hostsWithComponentInProperState "," ++
              ")&HostRoles/maintenance_state=OFF")),
           ("context", Val.str (operationData.message ++ " " ++
              jsString operationData.componentNameFormatted)),
           ("level", Val.str "SERVICE"),
           ("noOpsMessage", Val.ofOption operationData.componentNameFormatted)]
        success := some "bulkOperationForHostComponentsSuccessCallback"
        error := none
        showLoadingPopup := false }
  | none =>
    nothingToDo env (env.format (env.t "rolling.nothingToDo.body")
      [jsString operationData.componentNameFormatted])

/-- The method `warnBeforeDecommission(hostNames)`. -/
def warnBeforeDecommission (hostNames : String) : Outcome :=
  Outcome.ajaxSend
    { name := "host_components.hbase_regionserver.active"
      data := [("hostNames", Val.str hostNames)]
      success := some "warnBeforeDecommissionSuccess"
      error := none
      showLoadingPopup := false }

/-- The array `components` of the decommission callback: one object per returned
host-component, in response order. -/
def decommissionComponents (items : List HostJson) : List ComponentStatus :=
  items.foldl (fun components host =>
    host.host_components.foldl (fun components hostComponent =>
      components ++ [{ componentName := hostComponent.HostRoles.component_name,
                       hostName := host.Hosts.host_name,
                       workStatus := hostComponent.HostRoles.state }]) components) []

/-- The method `_getComponentsFromServerForHostComponentsDecommissionCallBack(operationData,
data)`. -/
def _getComponentsFromServerForHostComponentsDecommissionCallBack (env : Env)
    (operationData : OperationData) (data : ComponentsResponse) : Outcome :=
  match data.items with
  | none => Outcome.threw
  | some items =>
    let service := env.service operationData.serviceName
    let components := decommissionComponents items
    if components.length ≠ 0 then
      let hostsWithComponentInProperState := components.map (fun c => c.hostName)
      let turn_off := decide (indexOf operationData.action "OFF" ≠ -1)
      let svcName := operationData.serviceName
      let masterName := operationData.componentName
      let slaveName := operationData.realComponentName
      let hostNames := join hostsWithComponentInProperState ","
      if turn_off = true then
        if svcName = some "YARN" ∨ svcName = some "HBASE" ∨ svcName = some "HDFS" then
          Outcome.doRecommissionAndStart hostNames svcName masterName slaveName
        else Outcome.noEffect
      else
        let hostsWithComponentInProperState :=
          (components.filter (fun c => c.workStatus = some "STARTED")).map (fun c => c.hostName)
        if svcName = some "HBASE" then
          warnBeforeDecommission hostNames
        else
          match slaveName with
          | none => Outcome.threw
          | some slave =>
            let parameters := [("slave_type", slave)]
            let contextString :=
              if turn_off = true then "hosts.host." ++ toLowerCase slave ++ ".recommission"
              else "hosts.host." ++ toLowerCase slave ++ ".decommission"
            let parameters :=
              if turn_off = true then
                parameters ++ [("included_hosts", join hostsWithComponentInProperState ",")]
              else
                parameters ++ [("excluded_hosts", join hostsWithComponentInProperState ",")]
            Outcome.ajaxSend
              { name := "bulk_request.decommission"
                data :=
                  [("context", Val.str (env.t contextString)),
                   ("serviceName", Val.ofOption service.serviceName),
                   ("componentName", Val.ofOption operationData.componentName),
                   ("parameters", Val.obj parameters),
                   ("noOpsMessage", Val.ofOption operationData.componentNameFormatted)]
                success := some "bulkOperationForHostComponentsSuccessCallback"
                error := none
                showLoadingPopup := false }
    else
      nothingToDo env (env.format (env.t "rolling.nothingToDo.body")
        [jsString operationData.componentNameFormatted])

/-- The `params` of the active-RegionServer query: the `data` it was sent with. -/
structure RegionServerParams where
  hostNames : String
deriving DecidableEq, Repr

/-- The value `Em.get(data, 'items.length')`, `undefined` when `data` has no `items`. -/
def itemsLength (data : ComponentsResponse) : Option Nat :=
  data.items.map (fun items => items.length)

/-- The method `warnBeforeDecommissionSuccess(data, opt, params)`. -/
def warnBeforeDecommissionSuccess (data : ComponentsResponse) (params : RegionServerParams) :
    Outcome :=
  match itemsLength data with
  | some (_ + 1) => Outcome.showHbaseActiveWarning
  | _ => Outcome.checkRegionServerState params.hostNames

/-- The method `_getComponentsFromServerForHostComponentsRestartCallback(operationData,
data)`. -/
def _getComponentsFromServerForHostComponentsRestartCallback (env : Env)
    (operationData : OperationData) (data : ComponentsResponse) : Outcome :=
  match data.items with
  | none => Outcome.threw
  | some items =>
    let service := env.service operationData.serviceName
    let wrappedHostComponents : List WrappedHostComponent :=
      items.foldl (fun acc host =>
        host.host_components.foldl (fun acc hostComponent =>
          acc ++ [{ componentName := hostComponent.HostRoles.component_name,
                    serviceName := operationData.serviceName,
                    hostName := host.Hosts.host_name,
                    hostPassiveState := host.Hosts.maintenance_state,
                    staleConfigs := hostComponent.HostRoles.stale_configs,
                    passiveState := hostComponent.HostRoles.maintenance_state }]) acc) []
    match wrappedHostComponents with
    | first :: _ =>
      Outcome.showRollingRestartPopup first.componentName service.displayName
        (decide (service.passiveState = some "ON")) false wrappedHostComponents
    | [] =>
      nothingToDo env (env.format (env.t "rolling.nothingToDo.body")
        [jsString operationData.componentNameFormatted])

/-! ## `App.BulkOperationsController`: deletion of hosts -/

/-- The method `bulkOperationForHostsDelete(hosts)`. -/
def bulkOperationForHostsDelete (env : Env) (hosts : List DeleteResultEntry) : Outcome :=
  Outcome.getKDCSessionState
    (Outcome.deleteConfirmPopup
      (env.t "hosts.bulkOperation.deleteHosts.confirmation.header")
      hosts
      (Outcome.ajaxSend
        { name := "common.hosts.delete"
          data :=
            [("query", Val.str ("Hosts/host_name.in(" ++
                joinOpt (hosts.map (fun h => h.deleted.key)) "," ++ ")")),
             ("hosts", Val.list (hosts.map (fun h => h.deleted.key)))]
          success := some "bulkOperationForHostsDeleteCallback"
          error := some "bulkOperationForHostsDeleteCallback"
          showLoadingPopup := true }))

/-- One iteration of `data.deleteResult.forEach` in either delete callback: the pair of the
deletable (or deleted) hosts and the undeletable hosts. -/
def deleteResultStep (lists : List DeleteResultEntry × List UndeletableHost)
    (host : DeleteResultEntry) : List DeleteResultEntry × List UndeletableHost :=
  if host.deleted.truthy then (lists.1 ++ [host], lists.2)
  else (lists.1, lists.2 ++ [{ error := host.error, isCollapsed := true }])

/-- The first part of `bulkOperationForHostsDeleteDryRunCallback`, up to the test of
`undeletableHosts.length`: the arrays `deletableHosts` and `undeletableHosts`, or `none` when
an exception is thrown (a response text that is not JSON, or an error callback whose
`textStatus` is not `"error"`, for which `data.deleteResult` is `undefined`). -/
def deleteDryRunLists : DeleteCallbackArgs →
    Option (List DeleteResultEntry × List UndeletableHost)
  | DeleteCallbackArgs.error textStatus responseText params =>
    if textStatus = "error" then
      match responseText with
      | none => none
      | some response =>
        some ([], [{ error := some { key := params.hosts[0]?, code := response.status,
                                     message := response.message },
                     isCollapsed := true }])
    else none
  | DeleteCallbackArgs.success data params =>
    match data with
    | some data => some (data.deleteResult.foldl deleteResultStep ([], []))
    | none =>
      some ([{ host_name := none, deleted := DeletedField.info params.hosts[0]?,
               error := none }], [])

/-- The method `bulkOperationForHostsDeleteDryRunCallback(arg0, arg1, arg2, arg3, arg4)`. -/
def bulkOperationForHostsDeleteDryRunCallback (env : Env) (args : DeleteCallbackArgs) :
    Outcome :=
  match deleteDryRunLists args with
  | none => Outcome.threw
  | some (deletableHosts, undeletableHosts) =>
    if undeletableHosts.length ≠ 0 then
      Outcome.deleteDryRunPopup
        (env.t "hosts.bulkOperation.deleteHosts.dryRun.header")
        (if deletableHosts.length ≠ 0 then
          some (env.format (env.t "hosts.bulkOperation.deleteHosts.dryRun.primary")
            [toString deletableHosts.length])
         else none)
        (env.format (env.t "hosts.bulkOperation.deleteHosts.dryRun.message")
          [toString undeletableHosts.length])
        undeletableHosts
        (bulkOperationForHostsDelete env deletableHosts)
    else if deletableHosts.length ≠ 0 then
      bulkOperationForHostsDelete env deletableHosts
    else Outcome.noEffect

/-- The first part of `bulkOperationForHostsDeleteCallback`: the arrays `deletedHosts` and
`undeletableHosts`, or `none` when an exception is thrown. -/
def deleteLists : DeleteCallbackArgs →
    Option (List DeleteResultEntry × List UndeletableHost)
  | DeleteCallbackArgs.error textStatus responseText params =>
    if textStatus = "error" then
      match responseText with
      | none => none
      | some response =>
        some ([], [{ error := some { key := params.hosts[0]?, code := response.status,
                                     message := response.message },
                     isCollapsed := true }])
    else none
  | DeleteCallbackArgs.success data params =>
    match data with
    | some data => some (data.deleteResult.foldl deleteResultStep ([], []))
    | none =>
      some ([{ host_name := none, deleted := DeletedField.info params.hosts[0]?,
               error := none }], [])

/-- The method `bulkOperationForHostsDeleteCallback(arg0, arg1, arg2, arg3, arg4)`. -/
def bulkOperationForHostsDeleteCallback (env : Env) (args : DeleteCallbackArgs) : Outcome :=
  match deleteLists args with
  | none => Outcome.threw
  | some (deletedHosts, undeletableHosts) =>
    Outcome.deleteResultPopup
      (env.t "hosts.bulkOperation.deleteHosts.result.header")
      (env.format (env.t "hosts.bulkOperation.deleteHosts.dryRun.message")
        [toString undeletableHosts.length])
      undeletableHosts
      deletedHosts

/-- An environment for concrete evaluations: no client components, an empty store,
localization keys standing for their texts, and `format` appending its arguments. -/
def Env.sample : Env :=
  { clients := []
    service := fun _ => { serviceName := none, displayName := none, workStatus := none,
                          passiveState := none }
    t := fun key => key
    format := fun s args => s ++ ":" ++ join args "," }

/-! ## `App.BulkOperationsController`: reinstall, dry run and the success callback -/

/-- The method `bulkOperationForHostsReinstall(operationData, hosts)`. -/
def bulkOperationForHostsReinstall (env : Env) (operationData : OperationData)
    (hosts : List Host) : Outcome :=
  Outcome.getKDCSessionState
    (Outcome.ajaxSend
      { name := "common.host_components.update"
        data :=
          [("HostRoles", Val.obj [("state", "INSTALLED")]),
           ("query", Val.str ("HostRoles/host_name.in(" ++
              join (hosts.map (fun h => h.hostName)) "," ++
              ")&HostRoles/state=INSTALL_FAILED")),
           ("context", Val.str operationData.message),
           ("noOpsMessage",
              Val.str (env.t "hosts.host.maintainance.reinstallFailedComponents.context"))]
        success := some "bulkOperationForHostComponentsSuccessCallback"
        error := none
        showLoadingPopup := true })

/-- The method `bulkOperationForHostsDeleteDryRun(operationData, hosts)`. -/
def bulkOperationForHostsDeleteDryRun (_operationData : OperationData) (hosts : List Host) :
    Outcome :=
  Outcome.getKDCSessionState
    (Outcome.ajaxSend
      { name := "common.hosts.delete"
        data :=
          [("urlParams", Val.str "/?dry_run=true"),
           ("query", Val.str ("Hosts/host_name.in(" ++
              join (hosts.map (fun h => h.hostName)) "," ++ ")")),
           ("hosts", Val.list (hosts.map (fun h => some h.hostName)))]
        success := some "bulkOperationForHostsDeleteDryRunCallback"
        error := some "bulkOperationForHostsDeleteDryRunCallback"
        showLoadingPopup := true })

/-- The payload `data` of a successful update request, with the field the server fills when
the request created work. -/
structure UpdateResponse where
  requestId : Option Int
deriving DecidableEq, Repr

/-- The method `bulkOperationForHostComponentsSuccessCallback(data, opt, params, req)`, with
`params.noOpsMessage` and `req.status`. -/
def bulkOperationForHostComponentsSuccessCallback (env : Env) (data : Option UpdateResponse)
    (noOpsMessage : Option String) (status : Int) : Outcome :=
  if data = none ∧ status = 200 then
    nothingToDo env (env.format (env.t "rolling.nothingToDo.body")
      [if truthy noOpsMessage then jsString noOpsMessage
       else env.t "hosts.host.maintainance.allComponents.context"])
  else
    Outcome.dataLoading "show_bg" Outcome.showBackgroundOperationsPopup

/-! ## What an outcome leads to -/

/-- How the collaborators and the user answer what the controller hands them: whether the
session-state check runs its callback, whether a checkpoint check runs its callback, whether
the user presses the primary button of a popup, and whether the setting that `dataLoading`
loads is truthy. -/
structure Responses where
  sessionState : Bool
  checkpoint : Bool
  primary : Bool
  setting : Bool
deriving DecidableEq, Repr

/-- The requests sent when an outcome is carried out under the given answers, in order. -/
def Outcome.requests (r : Responses) : Outcome → List AjaxRequest
  | Outcome.ajaxSend request => [request]
  | Outcome.addConfirmPopup _ _ _ _ _ _ _ onPrimary =>
    if r.primary then onPrimary.requests r else []
  | Outcome.deleteDryRunPopup _ _ _ _ onPrimary =>
    if r.primary then onPrimary.requests r else []
  | Outcome.deleteConfirmPopup _ _ onPrimary =>
    if r.primary then onPrimary.requests r else []
  | Outcome.getKDCSessionState callback =>
    if r.sessionState then callback.requests r else []
  | Outcome.checkNnLastCheckpointTime callback _ =>
    if r.checkpoint then callback.requests r else []
  | Outcome.checkNnLastCheckpointTimeHA callback =>
    if r.checkpoint then callback.requests r else []
  | Outcome.dataLoading _ onTruthy =>
    if r.setting then onTruthy.requests r else []
  | _ => []

/-- Whether `backgroundOperationsController.showPopup()` is called when an outcome is carried
out under the given answers. -/
def Outcome.showsBackgroundOperations (r : Responses) : Outcome → Bool
  | Outcome.showBackgroundOperationsPopup => true
  | Outcome.addConfirmPopup _ _ _ _ _ _ _ onPrimary =>
    r.primary && onPrimary.showsBackgroundOperations r
  | Outcome.deleteDryRunPopup _ _ _ _ onPrimary =>
    r.primary && onPrimary.showsBackgroundOperations r
  | Outcome.deleteConfirmPopup _ _ onPrimary =>
    r.primary && onPrimary.showsBackgroundOperations r
  | Outcome.getKDCSessionState callback =>
    r.sessionState && callback.showsBackgroundOperations r
  | Outcome.checkNnLastCheckpointTime callback _ =>
    r.checkpoint && callback.showsBackgroundOperations r
  | Outcome.checkNnLastCheckpointTimeHA callback =>
    r.checkpoint && callback.showsBackgroundOperations r
  | Outcome.dataLoading _ onTruthy =>
    r.setting && onTruthy.showsBackgroundOperations r
  | _ => false

/-! ## `App.ClusterController`: `loadClusterName` and the controller's operations -/

/-- A record of the response of the cluster-name request, with `Clusters.cluster_name`. -/
structure ClusterJson where
  cluster_name : String
deriving DecidableEq, Repr

/-- The controller with its field `cluster`, `null` as declared. -/
structure ClusterState where
  controller : ClusterController
  cluster : Option ClusterJson
deriving DecidableEq, Repr

/-- The controller as declared. -/
def ClusterState.initial : ClusterState :=
  { controller := ClusterController.initial, cluster := none }

/-- The `success` handler of `loadClusterName`: `self.set('cluster', data.items[0])`. -/
def loadClusterNameSuccess (s : ClusterState) (items : List ClusterJson) : ClusterState :=
  { s with cluster := items[0]? }

/-- The `error` handler of `loadClusterName`: `self.set('isLoaded', true)`. -/
def loadClusterNameError (s : ClusterState) : ClusterState :=
  { s with controller := { s.controller with isLoaded := true } }

/-- An operation on the controller: a call of `updateLoadStatus`, or a run of the `success`
or of the `error` handler of `loadClusterName`. -/
inductive ControllerOperation where
  | updateLoadStatus (item : String)
  | loadClusterNameSuccess (items : List ClusterJson)
  | loadClusterNameError
deriving DecidableEq, Repr

/-- The controller after an operation. -/
def ClusterState.step (s : ClusterState) : ControllerOperation → ClusterState
  | ControllerOperation.updateLoadStatus item =>
    { s with controller := updateLoadStatus s.controller item }
  | ControllerOperation.loadClusterNameSuccess items => loadClusterNameSuccess s items
  | ControllerOperation.loadClusterNameError => loadClusterNameError s

/-- The controller after a sequence of operations, in order. -/
def ClusterState.run (s : ClusterState) (ops : List ControllerOperation) : ClusterState :=
  ops.foldl ClusterState.step s

/-- The invariant of the load status: `isLoaded` is true exactly when every entry of
`dataLoadList` is true. -/
def loadedIffAllDone (c : ClusterController) : Prop :=
  c.isLoaded = true ↔ ∀ entry ∈ c.dataLoadList, entry.2 = true

/-! ## `App.ClusterController`: `alerts` -/

/-- A record of `App.Alert`, with the properties the comparator reads: its `status`, the
timestamp `getTime()` of its `date` when it has one, and the timestamp of its property `time`
when it has one (the alert record of the specification has a status and a date, and no
`time`). -/
structure Alert where
  status : Int
  date : Option Int
  time : Option Int
deriving DecidableEq, Repr

/-- The comparator handed to `sort` by `alerts`. -/
def alertsComparator (left right : Alert) : Int :=
  let statusDiff := right.status - left.status
  if statusDiff = 0 then
    let rightTime := right.date
    let leftTime := left.time
    let rightTime := rightTime.getD 0
    let leftTime := leftTime.getD 0
    rightTime - leftTime
  else statusDiff

/-- What lets a comparison sort put `x` before `y`: asked `comparefn(x, y)`, the comparator
did not put `x` after `y`; or asked `comparefn(y, x)`, it did not put `y` before `x`. -/
def precedes {α : Type} (comparefn : α → α → Int) (x y : α) : Prop :=
  comparefn x y ≤ 0 ∨ 0 ≤ comparefn y x

/-- The built-in `array.sort(comparefn)`, whose algorithm the language leaves to the engine,
as the relation between an array and the arrays a comparison sort may return for it: a
permutation of the array in which every element is linked to the next one by a chain of
comparisons that each put the earlier element first. For a consistent comparator these are the
sorted permutations; for an inconsistent one several orders are possible, and which one is
returned depends on the comparisons the engine makes. -/
def sortResult {α : Type} (comparefn : α → α → Int) (array result : List α) : Prop :=
  result.Perm array ∧ result.Chain' (Relation.TransGen (precedes comparefn))

/-- The property `alerts`: the arrays `sortedArray` it may return for the array
`App.Alert.find().toArray()`. -/
def alerts (alertsArray sortedArray : List Alert) : Prop :=
  sortResult alertsComparator alertsArray sortedArray

/-- One step of an insertion sort: the element is moved left past every element the comparator
puts after it (`comparefn(tmp, element) > 0`). The sorted part is held last element first. -/
def sortInsert {α : Type} (comparefn : α → α → Int) (element : α) : List α → List α
  | [] => [element]
  | tmp :: rest =>
    if comparefn tmp element > 0 then tmp :: sortInsert comparefn element rest
    else element :: tmp :: rest

/-- Insertion sort from the left, one of the algorithms an engine may use for `sort`; it shows
that `sort` has a result for every array and comparator. -/
def insertionSort {α : Type} (comparefn : α → α → Int) (array : List α) : List α :=
  (array.foldl (fun sorted element => sortInsert comparefn element sorted) []).reverse

/-! ## The filter query of the generic host state-change, as the specification words it -/

/-- The non-client host-components of a response, host by host in response order: pairs of a
host name and a component name. -/
def nonClientComponents (clients : List String) (items : List HostJson) :
    List (String × String) :=
  items.flatMap (fun host =>
    (host.host_components.filter
      (fun hostComponent => !clients.contains hostComponent.HostRoles.component_name)).map
      (fun hostComponent => (host.Hosts.host_name, hostComponent.HostRoles.component_name)))

/-- The names of a list without repetition, each at its first occurrence. -/
def distinctNames (names : List String) : List String :=
  names.foldl (fun seen name => if name ∈ seen then seen else seen ++ [name]) []

/-- The hosts of a response that have at least one non-client component, in response
order. -/
def hostsWithComponents (clients : List String) (items : List HostJson) : List String :=
  distinctNames ((nonClientComponents clients items).map (fun p => p.1))

/-- The non-client components of a host, in response order. -/
def componentsOf (clients : List String) (items : List HostJson) (hostName : String) :
    List String :=
  ((nonClientComponents clients items).filter (fun p => p.1 = hostName)).map (fun p => p.2)

/-- The conjunctive subquery of a host. -/
def subQuery (hostName : String) (components : List String) : String :=
  "(HostRoles/component_name.in(" ++ join components "," ++ ")&HostRoles/host_name=" ++
    hostName ++ ")"

/-- The property names every object inherits from `Object.prototype`. -/
def objectPrototypeKeys : List String :=
  ["constructor", "toString", "toLocaleString", "valueOf", "hasOwnProperty", "isPrototypeOf",
   "propertyIsEnumerable", "__proto__", "__defineGetter__", "__defineSetter__",
   "__lookupGetter__", "__lookupSetter__"]

/-- A property name that `set` and `for ... in` treat as a plain key of the load-status
object: it has no dot (a dotted name is a property path for Ember's `set`), it has a
character that is not a digit (so it is not an array index, which is enumerated before the
other keys), it is not a property name that every object inherits (such as `hasOwnProperty`,
which the loop of `updateLoadStatus` calls), and it does not start with `__`, as the names
Ember keeps for itself do. -/
def plainKey (name : String) : Bool :=
  name.data.all (fun c => c != '.') && name.data.any (fun c => !c.isDigit) &&
    !objectPrototypeKeys.contains name && !"__".data.isPrefixOf name.data

/-- A host name that the map `hostsMap` and the template of the subquery treat as an ordinary
string: it has a character that is not a digit (so it is not an array index), it is not a
property name that every object inherits, and it does not contain the placeholder `%@` of
`fmt`. -/
def ordinaryHostName (name : String) : Bool :=
  name.data.any (fun c => !c.isDigit) && !objectPrototypeKeys.contains name &&
    decide (indexOf name "%@" = -1)

/-- An environment for concrete evaluations in which the service HDFS is started. -/
def Env.hdfsStarted : Env :=
  { clients := ["HDFS_CLIENT"]
    service := fun _ => { serviceName := some "HDFS", displayName := some "HDFS",
                          workStatus := some "STARTED", passiveState := some "OFF" }
    t := fun key => key
    format := fun s args => s ++ ":" ++ join args "," }

/-- A host record of a read-query response that carries one host-component, for concrete
evaluations. -/
def HostJson.single (hostName componentName : String) (state : Option String) : HostJson :=
  { Hosts := { host_name := hostName, maintenance_state := none }
    host_components :=
      [{ HostRoles := { component_name := componentName, state := state,
                        stale_configs := none, maintenance_state := none } }] }

/-! ## Lemmas on the load status -/

theorem foldl_updateLoadStatusStep_false (l : LoadList) :
    l.foldl updateLoadStatusStep false = false := by
  induction l with
  | nil => rfl
  | cons e l ih => simpa [List.foldl, updateLoadStatusStep] using ih

theorem foldl_updateLoadStatusStep_true (l : LoadList) :
    l.foldl updateLoadStatusStep true = l.all (fun e => e.2) := by
  induction l with
  | nil => rfl
  | cons e l ih =>
    cases h : e.2
    · simp [List.foldl, updateLoadStatusStep, h, foldl_updateLoadStatusStep_false]
    · simpa [List.foldl, updateLoadStatusStep, h] using ih

theorem set_map_of_mem (f : String → Bool) (item : String) :
    ∀ ks : List String, ks.Nodup → item ∈ ks →
      LoadList.set (ks.map (fun k => (k, f k))) item true
        = ks.map (fun k => (k, f k || decide (k = item)))
  | [], _, h => by simp at h
  | k :: ks, hnd, hmem => by
    rw [List.nodup_cons] at hnd
    by_cases hk : k = item
    · subst hk
      have hrest : ∀ x ∈ ks, (x, f x) = (x, f x || decide (x = k)) := by
        intro x hx
        have : x ≠ k := fun h => hnd.1 (h ▸ hx)
        simp [this]
      simp only [List.map_cons, LoadList.set, if_true, decide_True, Bool.or_true]
      rw [List.map_congr_left hrest]
    · have hmem2 : item ∈ ks := by
        rcases List.mem_cons.1 hmem with h | h
        · exact absurd h.symm hk
        · exact h
      simp only [List.map_cons, LoadList.set, if_neg hk, decide_eq_false hk, Bool.or_false]
      rw [set_map_of_mem f item ks hnd.2 hmem2]

theorem registeredKeys_nodup : registeredKeys.Nodup := by decide

/-- The load list reached from the declared controller by calls on registered keys: every
registered key is present, in declaration order, and holds `true` exactly when it was marked. -/
theorem dataLoadList_runUpdates (items : List String) (hreg : ∀ i ∈ items, i ∈ registeredKeys) :
    (runUpdates ClusterController.initial items).dataLoadList
      = registeredKeys.map (fun k => (k, decide (k ∈ items))) := by
  induction items using List.reverseRecOn with
  | nil => simp [runUpdates, ClusterController.initial, registeredKeys]
  | append_singleton items item ih =>
    have hreg1 : ∀ i ∈ items, i ∈ registeredKeys :=
      fun i hi => hreg i (List.mem_append_left _ hi)
    have hitem : item ∈ registeredKeys := hreg item (by simp)
    have ih1 := ih hreg1
    unfold runUpdates at ih1 ⊢
    rw [List.foldl_append, List.foldl_cons, List.foldl_nil]
    show LoadList.set _ item true = _
    rw [ih1, set_map_of_mem _ item registeredKeys registeredKeys_nodup hitem]
    apply List.map_congr_left
    intro k _
    by_cases hk : k = item <;> simp [hk]

/-- Value of `isLoaded` after a sequence of calls on registered keys. -/
theorem isLoaded_runUpdates (items : List String) (hreg : ∀ i ∈ items, i ∈ registeredKeys) :
    (runUpdates ClusterController.initial items).isLoaded = true
      ↔ ∀ k ∈ registeredKeys, k ∈ items := by
  induction items using List.reverseRecOn with
  | nil =>
    constructor
    · intro h
      exact absurd h (by decide)
    · intro h
      exact absurd (h "hosts" (by decide)) (List.not_mem_nil _)
  | append_singleton items item _ =>
    have hdl := dataLoadList_runUpdates (items ++ [item]) hreg
    have hloaded : (runUpdates ClusterController.initial (items ++ [item])).isLoaded
        = (runUpdates ClusterController.initial (items ++ [item])).dataLoadList.foldl
            updateLoadStatusStep true := by
      unfold runUpdates
      rw [List.foldl_append, List.foldl_cons, List.foldl_nil]
      rfl
    rw [hloaded, hdl, foldl_updateLoadStatusStep_true]
    simp [List.all_map]

/-! ## Lemmas on the merge of the two service payloads -/

theorem lastIdxFrom_some {α : Type} (p : α → Bool) :
    ∀ (xs : List α) (s : Nat) (acc : Option Nat) (i : Nat),
      lastIdxFrom p s xs acc = some i →
        acc = some i ∨ (s ≤ i ∧ ∃ x, xs[i - s]? = some x ∧ p x = true)
  | [], _, _, _, h => Or.inl h
  | x :: xs, s, acc, i, h => by
    rcases lastIdxFrom_some p xs (s + 1) _ i h with h1 | ⟨hle, y, hy, hpy⟩
    · by_cases hp : p x = true
      · rw [if_pos hp] at h1
        have hsi : s = i := by simpa using h1
        subst hsi
        exact Or.inr ⟨Nat.le_refl _, x, by simp, hp⟩
      · rw [if_neg hp] at h1
        exact Or.inl h1
    · refine Or.inr ⟨by omega, y, ?_, hpy⟩
      have hidx : i - s = (i - (s + 1)) + 1 := by omega
      rw [hidx, List.getElem?_cons_succ]
      exact hy

theorem lastIdx_some {α : Type} (p : α → Bool) (xs : List α) (i : Nat)
    (h : lastIdx p xs = some i) : ∃ x, xs[i]? = some x ∧ p x = true := by
  rcases lastIdxFrom_some p xs 0 none i h with h1 | ⟨_, x, hx, hp⟩
  · exact absurd h1 (by simp)
  · exact ⟨x, by simpa using hx, hp⟩

/-- A selected position holds a component of that name in a service of that name. -/
theorem selectComponent_some (json : ServicesJson) (s c : String) (r : Nat × Nat)
    (h : selectComponent json s c = some r) :
    ∃ svc comp, json.items[r.1]? = some svc ∧ svc.ServiceInfo.service_name = s ∧
      svc.components[r.2]? = some comp ∧ comp.ServiceComponentInfo.component_name = c ∧
      componentAt json r = some comp := by
  unfold selectComponent at h
  cases hi : lastIdx (fun svc => svc.ServiceInfo.service_name == s) json.items with
  | none => simp [hi] at h
  | some i =>
    obtain ⟨svc, hsvc, hname⟩ := lastIdx_some _ _ _ hi
    simp only [hi, hsvc] at h
    cases hj : lastIdx (fun c1 => c1.ServiceComponentInfo.component_name == c)
        svc.components with
    | none => simp [hj] at h
    | some j =>
      obtain ⟨comp, hcomp, hcname⟩ := lastIdx_some _ _ _ hj
      simp only [hj, Option.some.injEq] at h
      subst h
      refine ⟨svc, comp, hsvc, by simpa using hname, hcomp, by simpa using hcname, ?_⟩
      simp [componentAt, hsvc, hcomp]

theorem selectComponent_ne (json : ServicesJson) (s c s' c' : String) (r r' : Nat × Nat)
    (h : selectComponent json s c = some r) (h' : selectComponent json s' c' = some r')
    (hne : s ≠ s') : r' ≠ r := by
  obtain ⟨svc, _, hsvc, hname, _⟩ := selectComponent_some json s c r h
  obtain ⟨svc', _, hsvc', hname', _⟩ := selectComponent_some json s' c' r' h'
  intro heq
  subst heq
  rw [hsvc] at hsvc'
  have : svc = svc' := by simpa using hsvc'
  subst this
  exact hne (hname.symm.trans hname')

theorem componentAt_assign_other (json : ServicesJson) (c1 : Option (Nat × Nat))
    (c2 : Option ComponentJson) (r : Nat × Nat) (hne : c1 ≠ some r) :
    componentAt (assignServiceComponentInfo json c1 c2) r = componentAt json r := by
  unfold assignServiceComponentInfo
  cases c1 with
  | none => rfl
  | some r1 =>
    cases c2 with
    | none => rfl
    | some c =>
      obtain ⟨i, j⟩ := r1
      obtain ⟨i', j'⟩ := r
      simp only [componentAt, List.getElem?_modify]
      by_cases hi : i = i'
      · subst hi
        have hj : j ≠ j' := by
          intro hj
          exact hne (by rw [hj])
        cases hs : json.items[i]? with
        | none => simp
        | some svc => simp [List.getElem?_modify, hj]
      · cases hs : json.items[i']? with
        | none => simp
        | some svc => simp [hi]

theorem componentAt_assign_none (json : ServicesJson) (c1 : Option (Nat × Nat))
    (r : Nat × Nat) :
    componentAt (assignServiceComponentInfo json c1 none) r = componentAt json r := by
  unfold assignServiceComponentInfo
  cases c1 <;> rfl

theorem componentAt_assign_same (json : ServicesJson) (c : ComponentJson) (r : Nat × Nat) :
    componentAt (assignServiceComponentInfo json (some r) (some c)) r
      = (componentAt json r).map
          (fun c1 => { c1 with ServiceComponentInfo := c.ServiceComponentInfo }) := by
  obtain ⟨i, j⟩ := r
  simp only [assignServiceComponentInfo, componentAt, List.getElem?_modify]
  cases hs : json.items[i]? with
  | none => simp
  | some svc =>
    cases hc : svc.components[j]? with
    | none => simp [List.getElem?_modify, hc]
    | some c1 => simp [List.getElem?_modify, hc]

/-- The component at a position after one conditional assignment. -/
theorem componentAt_assign (json : ServicesJson) (c1 : Option (Nat × Nat))
    (c2 : Option ComponentJson) (r : Nat × Nat) :
    componentAt (assignServiceComponentInfo json c1 c2) r
      = if c1 = some r then
          (componentAt json r).map (fun x => { x with ServiceComponentInfo :=
            match c2 with
            | some c => c.ServiceComponentInfo
            | none => x.ServiceComponentInfo })
        else componentAt json r := by
  by_cases h : c1 = some r
  · subst h
    rw [if_pos rfl]
    cases c2 with
    | none =>
      rw [componentAt_assign_none]
      cases componentAt json r <;> rfl
    | some c => rw [componentAt_assign_same]
  · rw [if_neg h, componentAt_assign_other json c1 c2 r h]

/-! ## Lemmas on `App.BulkOperationsController` -/

theorem indexOfFrom_eq_neg_one (pattern : List Char) :
    ∀ (cs : List Char) (i : Nat), indexOfFrom pattern cs i = -1 ↔ ¬ pattern <:+: cs
  | [], i => by
    unfold indexOfFrom
    cases pattern with
    | nil => simp
    | cons p ps => simp
  | c :: cs, i => by
    unfold indexOfFrom
    rw [List.infix_cons_iff]
    by_cases h : pattern.isPrefixOf (c :: cs) = true
    · rw [if_pos h]
      have hp : pattern <+: c :: cs := List.isPrefixOf_iff_prefix.1 h
      constructor
      · intro h1
        omega
      · intro h1
        exact absurd (Or.inl hp) h1
    · rw [if_neg h, indexOfFrom_eq_neg_one pattern cs (i + 1)]
      have hp : ¬ pattern <+: c :: cs := fun hp => h (List.isPrefixOf_iff_prefix.2 hp)
      constructor
      · intro h1 h2
        rcases h2 with h2 | h2
        · exact hp h2
        · exact h1 h2
      · intro h1 h2
        exact h1 (Or.inr h2)

/-- The test `s.indexOf(pattern) == -1` holds exactly when `pattern` does not occur in `s`. -/
theorem indexOf_eq_neg_one (s pattern : String) :
    indexOf s pattern = -1 ↔ ¬ pattern.data <:+: s.data :=
  indexOfFrom_eq_neg_one pattern.data s.data 0

theorem foldl_push_map {α β : Type} (f : α → β) (xs : List α) (acc : List β) :
    xs.foldl (fun acc x => acc ++ [f x]) acc = acc ++ xs.map f := by
  induction xs generalizing acc with
  | nil => simp
  | cons x xs ih => simp [List.foldl_cons, ih]

/-- The array `components` holds one object per returned host-component, host by host. -/
theorem decommissionComponents_eq_flatMap (items : List HostJson) :
    decommissionComponents items
      = items.flatMap (fun host => host.host_components.map (fun hostComponent =>
          ({ componentName := hostComponent.HostRoles.component_name,
             hostName := host.Hosts.host_name,
             workStatus := hostComponent.HostRoles.state } : ComponentStatus))) := by
  unfold decommissionComponents
  have key : ∀ (items : List HostJson) (acc : List ComponentStatus),
      items.foldl (fun components host =>
        host.host_components.foldl (fun components hostComponent =>
          components ++ [({ componentName := hostComponent.HostRoles.component_name,
                            hostName := host.Hosts.host_name,
                            workStatus := hostComponent.HostRoles.state } : ComponentStatus)])
          components) acc
      = acc ++ items.flatMap (fun host => host.host_components.map (fun hostComponent =>
          ({ componentName := hostComponent.HostRoles.component_name,
             hostName := host.Hosts.host_name,
             workStatus := hostComponent.HostRoles.state } : ComponentStatus))) := by
    intro items
    induction items with
    | nil => intro acc; simp
    | cons host items ih =>
      intro acc
      rw [List.foldl_cons, foldl_push_map, ih]
      simp [List.flatMap_cons]
  simpa using key items []

theorem foldl_deleteResultStep (xs : List DeleteResultEntry)
    (acc : List DeleteResultEntry × List UndeletableHost) :
    xs.foldl deleteResultStep acc
      = (acc.1 ++ xs.filter (fun h => h.deleted.truthy),
         acc.2 ++ (xs.filter (fun h => !h.deleted.truthy)).map
           (fun h => { error := h.error, isCollapsed := true })) := by
  induction xs generalizing acc with
  | nil => simp
  | cons x xs ih =>
    rw [List.foldl_cons, ih]
    by_cases hx : x.deleted.truthy = true
    · simp [deleteResultStep, hx]
    · simp [deleteResultStep, hx]

/-! ## Theorems on `App.ClusterController` -/

/-- C1: from the declared controller, for every sequence of `updateLoadStatus` calls on
registered keys that covers all seven keys, there is one call, the one that marks the last
distinct key, such that `isLoaded` is `false` after every number of calls up to it and `true`
after it and after every later call. -/
theorem updateLoadStatus_isLoaded_flips_once (calls : List String)
    (hreg : ∀ c ∈ calls, c ∈ registeredKeys)
    (hcover : ∀ k ∈ registeredKeys, k ∈ calls) :
    ∃ n, n < calls.length ∧
      (¬ ∀ k ∈ registeredKeys, k ∈ calls.take n) ∧
      (∀ k ∈ registeredKeys, k ∈ calls.take (n + 1)) ∧
      ∀ m, m ≤ calls.length →
        (runUpdates ClusterController.initial (calls.take m)).isLoaded = decide (n < m) := by
  have hex : ∃ m, ∀ k ∈ registeredKeys, k ∈ calls.take m :=
    ⟨calls.length, by simpa using hcover⟩
  have hspec := Nat.find_spec hex
  have hpos : 0 < Nat.find hex := by
    rcases Nat.eq_zero_or_pos (Nat.find hex) with h0 | h0
    · rw [h0] at hspec
      exact absurd (hspec "hosts" (by decide)) (by simp)
    · exact h0
  have hle : Nat.find hex ≤ calls.length := Nat.find_min' hex (by simpa using hcover)
  refine ⟨Nat.find hex - 1, by omega, Nat.find_min hex (by omega), ?_, ?_⟩
  · rw [Nat.sub_add_cancel hpos]
    exact hspec
  · intro m _
    have hregm : ∀ c ∈ calls.take m, c ∈ registeredKeys :=
      fun c hc => hreg c (List.mem_of_mem_take hc)
    have hiff := isLoaded_runUpdates (calls.take m) hregm
    by_cases hm : Nat.find hex - 1 < m
    · have hfm : Nat.find hex ≤ m := by omega
      have hall : ∀ k ∈ registeredKeys, k ∈ calls.take m := by
        intro k hk
        have hsub := List.take_subset_take_left calls hfm
        exact hsub (hspec k hk)
      rw [decide_eq_true hm]
      exact hiff.2 hall
    · have hlt : m < Nat.find hex := by omega
      have hnot := Nat.find_min hex hlt
      rw [decide_eq_false hm]
      cases hb : (runUpdates ClusterController.initial (calls.take m)).isLoaded
      · rfl
      · exact absurd (hiff.1 hb) hnot

/-- C1, at the calls `hosts, hosts, runs, services, cluster, racks, alerts, users, runs`. -/
theorem updateLoadStatus_isLoaded_flips_once_witness :
    ∃ n, n < ["hosts", "hosts", "runs", "services", "cluster", "racks", "alerts", "users",
        "runs"].length ∧
      (¬ ∀ k ∈ registeredKeys, k ∈ ["hosts", "hosts", "runs", "services", "cluster", "racks",
        "alerts", "users", "runs"].take n) ∧
      (∀ k ∈ registeredKeys, k ∈ ["hosts", "hosts", "runs", "services", "cluster", "racks",
        "alerts", "users", "runs"].take (n + 1)) ∧
      ∀ m, m ≤ ["hosts", "hosts", "runs", "services", "cluster", "racks", "alerts", "users",
          "runs"].length →
        (runUpdates ClusterController.initial (["hosts", "hosts", "runs", "services",
          "cluster", "racks", "alerts", "users", "runs"].take m)).isLoaded = decide (n < m) :=
  updateLoadStatus_isLoaded_flips_once
    ["hosts", "hosts", "runs", "services", "cluster", "racks", "alerts", "users", "runs"]
    (by decide) (by decide)

/-- C2, counterexample: when `serviceComponentMapper.map` completes before
`metricsMapper.map`, each with a non-null payload, neither handler runs the merge: no call to
`App.servicesMapper.map` or `updateLoadStatus` is made and `services` stays `false`. -/
theorem servicesMerge_reverse_order_never_runs :
    ((ServicesLoad.start ClusterController.initial).run
        [ServicesCompletion.serviceComponent (some { items := [] }),
         ServicesCompletion.metrics (some { items := [] })]).calls = []
    ∧ ((ServicesLoad.start ClusterController.initial).run
        [ServicesCompletion.serviceComponent (some { items := [] }),
         ServicesCompletion.metrics (some { items := [] })]).controller
      = ClusterController.initial := by
  constructor <;> rfl

/-- C2, amended: when `metricsMapper.map` completes before `serviceComponentMapper.map`, each
with a non-null payload, the first handler only stores its payload and the second handler
runs the merge followed by `updateLoadStatus('services')`, exactly once; in the other order
the first handler only stores its payload too, and the second runs no merge. -/
theorem servicesMerge_once_in_issue_order (c : ClusterController) (a b : ServicesJson) :
    ((ServicesLoad.start c).run [ServicesCompletion.metrics (some a)]).calls = []
    ∧ ((ServicesLoad.start c).run [ServicesCompletion.metrics (some a)]).controller = c
    ∧ ((ServicesLoad.start c).run
        [ServicesCompletion.metrics (some a), ServicesCompletion.serviceComponent (some b)]).calls
      = [ServicesCall.servicesMapperMap (mergeServiceComponentInfo a b),
         ServicesCall.updateLoadStatus "services"]
    ∧ ((ServicesLoad.start c).run
        [ServicesCompletion.metrics (some a),
         ServicesCompletion.serviceComponent (some b)]).controller
      = updateLoadStatus c "services"
    ∧ ((ServicesLoad.start c).run [ServicesCompletion.serviceComponent (some b)]).calls = []
    ∧ ((ServicesLoad.start c).run
        [ServicesCompletion.serviceComponent (some b), ServicesCompletion.metrics (some a)]).calls
      = [] := by
  refine ⟨rfl, rfl, rfl, rfl, rfl, rfl⟩

/-- The component at a position of the merged payload, in terms of the three selections. -/
theorem componentAt_merge (a b : ServicesJson) (r : Nat × Nat) :
    componentAt (mergeServiceComponentInfo a b) r
      = if selectComponent a "HBASE" "HBASE_MASTER" = some r then
          (if selectComponent a "MAPREDUCE" "JOBTRACKER" = some r then
            (if selectComponent a "HDFS" "NAMENODE" = some r then
              (componentAt a r).map (fun x => { x with ServiceComponentInfo :=
                match (selectComponent b "HDFS" "NAMENODE").bind (componentAt b) with
                | some c => c.ServiceComponentInfo
                | none => x.ServiceComponentInfo })
            else componentAt a r).map (fun x => { x with ServiceComponentInfo :=
              match (selectComponent b "MAPREDUCE" "JOBTRACKER").bind (componentAt b) with
              | some c => c.ServiceComponentInfo
              | none => x.ServiceComponentInfo })
          else
            (if selectComponent a "HDFS" "NAMENODE" = some r then
              (componentAt a r).map (fun x => { x with ServiceComponentInfo :=
                match (selectComponent b "HDFS" "NAMENODE").bind (componentAt b) with
                | some c => c.ServiceComponentInfo
                | none => x.ServiceComponentInfo })
            else componentAt a r)).map (fun x => { x with ServiceComponentInfo :=
              match (selectComponent b "HBASE" "HBASE_MASTER").bind (componentAt b) with
              | some c => c.ServiceComponentInfo
              | none => x.ServiceComponentInfo })
        else
          (if selectComponent a "MAPREDUCE" "JOBTRACKER" = some r then
            (if selectComponent a "HDFS" "NAMENODE" = some r then
              (componentAt a r).map (fun x => { x with ServiceComponentInfo :=
                match (selectComponent b "HDFS" "NAMENODE").bind (componentAt b) with
                | some c => c.ServiceComponentInfo
                | none => x.ServiceComponentInfo })
            else componentAt a r).map (fun x => { x with ServiceComponentInfo :=
              match (selectComponent b "MAPREDUCE" "JOBTRACKER").bind (componentAt b) with
              | some c => c.ServiceComponentInfo
              | none => x.ServiceComponentInfo })
          else
            (if selectComponent a "HDFS" "NAMENODE" = some r then
              (componentAt a r).map (fun x => { x with ServiceComponentInfo :=
                match (selectComponent b "HDFS" "NAMENODE").bind (componentAt b) with
                | some c => c.ServiceComponentInfo
                | none => x.ServiceComponentInfo })
            else componentAt a r)) := by
  unfold mergeServiceComponentInfo
  simp only [componentAt_assign]

/-- C3: in the merged payload, the component selected in the first payload for each of the
three kinds carries the `ServiceComponentInfo` of the component selected in the second payload
when there is one, and its own original block otherwise, the rest of it unchanged; every
other component is unchanged; and the payloads `HDFS:NAMENODE=x, MAPREDUCE:JOBTRACKER=y` and
`HDFS:NAMENODE=x'` merge to `HDFS:NAMENODE=x', MAPREDUCE:JOBTRACKER=y`. -/
theorem mergeServiceComponentInfo_overlay (a b : ServicesJson) :
    (∀ kind ∈ mergedKinds, ∀ r, selectComponent a kind.1 kind.2 = some r →
      ∃ c1, componentAt a r = some c1 ∧
        componentAt (mergeServiceComponentInfo a b) r
          = some { c1 with ServiceComponentInfo :=
              match (selectComponent b kind.1 kind.2).bind (componentAt b) with
              | some c2 => c2.ServiceComponentInfo
              | none => c1.ServiceComponentInfo })
    ∧ (∀ r, (∀ kind ∈ mergedKinds, selectComponent a kind.1 kind.2 ≠ some r) →
        componentAt (mergeServiceComponentInfo a b) r = componentAt a r)
    ∧ (∀ (x y x' : List (String × String)) (h1 h2 h3 : List String),
        mergeServiceComponentInfo
          { items :=
              [{ ServiceInfo := { service_name := "HDFS" },
                 components := [{ ServiceComponentInfo :=
                   { component_name := "NAMENODE", fields := x }, host_components := h1 }] },
               { ServiceInfo := { service_name := "MAPREDUCE" },
                 components := [{ ServiceComponentInfo :=
                   { component_name := "JOBTRACKER", fields := y }, host_components := h2 }] }] }
          { items :=
              [{ ServiceInfo := { service_name := "HDFS" },
                 components := [{ ServiceComponentInfo :=
                   { component_name := "NAMENODE", fields := x' }, host_components := h3 }] }] }
        = { items :=
              [{ ServiceInfo := { service_name := "HDFS" },
                 components := [{ ServiceComponentInfo :=
                   { component_name := "NAMENODE", fields := x' }, host_components := h1 }] },
               { ServiceInfo := { service_name := "MAPREDUCE" },
                 components := [{ ServiceComponentInfo :=
                   { component_name := "JOBTRACKER", fields := y }, host_components := h2 }] }] })
    := by
  refine ⟨?_, ?_, ?_⟩
  · intro kind hk r hsel
    obtain ⟨_, c1, _, _, _, _, hc1⟩ := selectComponent_some a kind.1 kind.2 r hsel
    refine ⟨c1, hc1, ?_⟩
    simp only [mergedKinds, List.mem_cons, List.mem_singleton, List.not_mem_nil, or_false] at hk
    rcases hk with hk | hk | hk <;> subst hk <;> simp only at hsel ⊢
    · have h2 : selectComponent a "MAPREDUCE" "JOBTRACKER" ≠ some r :=
        fun h => selectComponent_ne a _ _ _ _ r r hsel h (by decide) rfl
      have h3 : selectComponent a "HBASE" "HBASE_MASTER" ≠ some r :=
        fun h => selectComponent_ne a _ _ _ _ r r hsel h (by decide) rfl
      rw [componentAt_merge, if_neg h3, if_neg h2, if_pos hsel, hc1]
      rfl
    · have h1 : selectComponent a "HDFS" "NAMENODE" ≠ some r :=
        fun h => selectComponent_ne a _ _ _ _ r r hsel h (by decide) rfl
      have h3 : selectComponent a "HBASE" "HBASE_MASTER" ≠ some r :=
        fun h => selectComponent_ne a _ _ _ _ r r hsel h (by decide) rfl
      rw [componentAt_merge, if_neg h3, if_pos hsel, if_neg h1, hc1]
      rfl
    · have h1 : selectComponent a "HDFS" "NAMENODE" ≠ some r :=
        fun h => selectComponent_ne a _ _ _ _ r r hsel h (by decide) rfl
      have h2 : selectComponent a "MAPREDUCE" "JOBTRACKER" ≠ some r :=
        fun h => selectComponent_ne a _ _ _ _ r r hsel h (by decide) rfl
      rw [componentAt_merge, if_pos hsel, if_neg h2, if_neg h1, hc1]
      rfl
  · intro r hr
    have h1 := hr ("HDFS", "NAMENODE") (by simp [mergedKinds])
    have h2 := hr ("MAPREDUCE", "JOBTRACKER") (by simp [mergedKinds])
    have h3 := hr ("HBASE", "HBASE_MASTER") (by simp [mergedKinds])
    rw [componentAt_merge, if_neg h3, if_neg h2, if_neg h1]
  · intro x y x' h1 h2 h3
    rfl

/-! ## Theorems on `App.BulkOperationsController` -/

/-- C4, counterexample: with `data.items` the empty array, the generic host-component
callback sends the update request (over the empty host list), the add-component callback
offers the add for the selected host, and the host restart callback hands the empty list to
`restartHostComponents`; none of the three shows the "nothing to do" popup. -/
theorem emptyItems_not_nothingToDo_everywhere :
    _getComponentsFromServerForHostComponentsCallback Env.sample
        { action := "INSTALLED", componentName := some "DATANODE",
          realComponentName := none, componentNameFormatted := some "DataNodes",
          serviceName := some "HDFS", message := "Stop", state := none }
        { items := some [] }
      = Outcome.ajaxSend
          { name := "common.host_components.update"
            data :=
              [("HostRoles", Val.obj [("state", "INSTALLED")]),
               ("query", Val.str
                  "HostRoles/component_name=DATANODE&HostRoles/host_name.in()&HostRoles/maintenance_state=OFF"),
               ("context", Val.str "Stop DataNodes"),
               ("level", Val.str "SERVICE"),
               ("noOpsMessage", Val.str "DataNodes")]
            success := some "bulkOperationForHostComponentsSuccessCallback"
            error := none
            showLoadingPopup := false }
    ∧ (∃ header hostNames visibleHosts skippedVisible skipped message warningInfo,
        _getComponentsFromServerForHostComponentsAddCallback Env.sample
            { action := "ADD", componentName := some "DATANODE",
              realComponentName := none, componentNameFormatted := some "DataNodes",
              serviceName := some "HDFS", message := "Add", state := none }
            { items := some [] } [{ hostName := "h1" }]
          = Outcome.addConfirmPopup header hostNames visibleHosts skippedVisible skipped message
              warningInfo
              (bulkAddHostComponents
                { action := "ADD", componentName := some "DATANODE",
                  realComponentName := none, componentNameFormatted := some "DataNodes",
                  serviceName := some "HDFS", message := "Add", state := none } ["h1"]))
    ∧ _getComponentsFromServerForRestartCallback Env.sample { items := some [] }
      = Outcome.restartHostComponents [] "rollingrestart.context.allOnSelectedHosts" "HOST" := by
  refine ⟨by decide, ⟨_, _, _, _, _, _, _, rfl⟩, by decide⟩

/-- C4, amended: with `data.items` the empty array, the generic host callback, the
passive-state callback, the decommission callback and the host-component restart callback
show the "nothing to do" popup and send no request; the add-component callback shows it when
no host is selected and otherwise offers the add for every selected host; the host restart
callback hands the empty list to `restartHostComponents`. -/
theorem emptyItems_nothingToDo (env : Env) (operationData : OperationData)
    (hosts : List Host) :
    _getComponentsFromServerForHostsCallback env operationData { items := some [] }
      = nothingToDo env (env.format (env.t "rolling.nothingToDo.body")
          [env.t "hosts.host.maintainance.allComponents.context"])
    ∧ _getComponentsFromServerForPassiveStateCallback env operationData { items := some [] }
      = nothingToDo env (env.t "hosts.bulkOperation.passiveState.nothingToDo.body")
    ∧ _getComponentsFromServerForHostComponentsDecommissionCallBack env operationData
        { items := some [] }
      = nothingToDo env (env.format (env.t "rolling.nothingToDo.body")
          [jsString operationData.componentNameFormatted])
    ∧ _getComponentsFromServerForHostComponentsRestartCallback env operationData
        { items := some [] }
      = nothingToDo env (env.format (env.t "rolling.nothingToDo.body")
          [jsString operationData.componentNameFormatted])
    ∧ _getComponentsFromServerForHostComponentsAddCallback env operationData
        { items := some [] } hosts
      = (if hosts = [] then
          nothingToDo env
            (env.format
              (env.t "hosts.bulkOperation.confirmation.add.component.nothingToDo.body")
              [jsString operationData.componentNameFormatted])
        else
          Outcome.addConfirmPopup
            (env.t "hosts.bulkOperation.confirmation.header")
            (join (hosts.map (fun h => h.hostName)) "\n")
            (_showHostNames env (hosts.map (fun h => h.hostName)) "\n" 3)
            ""
            none
            (env.format (env.t "hosts.bulkOperation.confirmation.add.component")
              [operationData.message, jsString operationData.componentNameFormatted,
               toString hosts.length])
            (env.format (env.t "hosts.bulkOperation.confirmation.add.component.skip")
              [jsString operationData.componentNameFormatted])
            (bulkAddHostComponents operationData (hosts.map (fun h => h.hostName))))
    ∧ _getComponentsFromServerForRestartCallback env { items := some [] }
      = Outcome.restartHostComponents []
          (env.t "rollingrestart.context.allOnSelectedHosts") "HOST" := by
  refine ⟨rfl, rfl, rfl, rfl, ?_, ?_⟩
  · cases hosts with
    | nil => rfl
    | cons h hs =>
      simp [_getComponentsFromServerForHostComponentsAddCallback, _showHostNames, join]
      rfl
  · simp [_getComponentsFromServerForRestartCallback]

/-- C5: for every operation request, `bulkOperation` makes exactly one call, to the handler of
the first row of the routing table that matches the scope of the request and its action, with
the request and the hosts unchanged. -/
theorem bulkOperation_routes_first_match (operationData : OperationData) (hosts : List Host) :
    ∃ handler, firstMatch (scopeOf operationData) operationData.action = some handler ∧
      bulkOperation operationData hosts = [⟨handler, operationData, hosts⟩] := by
  unfold bulkOperation scopeOf firstMatch routingTable
  by_cases hs : truthy operationData.componentNameFormatted = true
  · by_cases h1 : operationData.action = "RESTART"
    · exact ⟨Handler.bulkOperationForHostComponentsRestart, by simp [hs, h1], by simp [hs, h1]⟩
    · by_cases h2 : operationData.action = "ADD"
      · exact ⟨Handler.bulkOperationForHostComponentsAdd, by simp [hs, h2], by simp [hs, h2]⟩
      · by_cases h3 : indexOf operationData.action "DECOMMISSION" = -1
        · have h3' := (indexOf_eq_neg_one _ _).1 h3
          exact ⟨Handler.bulkOperationForHostComponents, by simp [hs, h1, h2, h3'],
            by simp [hs, h1, h2, h3]⟩
        · have h3' : "DECOMMISSION".data <:+: operationData.action.data := by
            by_contra hc
            exact h3 ((indexOf_eq_neg_one _ _).2 hc)
          exact ⟨Handler.bulkOperationForHostComponentsDecommission,
            by simp [hs, h1, h2, h3'], by simp [hs, h1, h2, h3]⟩
  · by_cases h1 : operationData.action = "SET_RACK_INFO"
    · exact ⟨Handler.bulkOperationForHostsSetRackInfo, by simp [hs, h1], by simp [hs, h1]⟩
    · by_cases h2 : operationData.action = "RESTART"
      · exact ⟨Handler.bulkOperationForHostsRestart, by simp [hs, h2], by simp [hs, h2]⟩
      · by_cases h3 : operationData.action = "REINSTALL"
        · exact ⟨Handler.bulkOperationForHostsReinstall, by simp [hs, h3], by simp [hs, h3]⟩
        · by_cases h4 : operationData.action = "PASSIVE_STATE"
          · exact ⟨Handler.bulkOperationForHostsPassiveState, by simp [hs, h4],
              by simp [hs, h4]⟩
          · exact ⟨Handler.bulkOperationForHosts, by simp [hs, h1, h2, h3, h4],
              by simp [hs, h1, h2, h3, h4]⟩

/-- C6, counterexample: a request whose `componentName` is set and whose
`componentNameFormatted` is not is routed to a host handler, and a request whose
`componentNameFormatted` is set and whose `componentName` is not is routed to a host-component
handler. -/
theorem bulkOperation_scope_not_by_componentName :
    bulkOperation
        { action := "INSTALLED", componentName := some "DATANODE", realComponentName := none,
          componentNameFormatted := none, serviceName := some "HDFS", message := "Stop",
          state := none } [{ hostName := "h1" }]
      = [⟨Handler.bulkOperationForHosts,
          { action := "INSTALLED", componentName := some "DATANODE", realComponentName := none,
            componentNameFormatted := none, serviceName := some "HDFS", message := "Stop",
            state := none }, [{ hostName := "h1" }]⟩]
    ∧ bulkOperation
        { action := "INSTALLED", componentName := none, realComponentName := none,
          componentNameFormatted := some "DataNodes", serviceName := some "HDFS",
          message := "Stop", state := none } [{ hostName := "h1" }]
      = [⟨Handler.bulkOperationForHostComponents,
          { action := "INSTALLED", componentName := none, realComponentName := none,
            componentNameFormatted := some "DataNodes", serviceName := some "HDFS",
            message := "Stop", state := none }, [{ hostName := "h1" }]⟩] := by
  constructor <;> decide

/-- C6, amended: `bulkOperation` routes a request to one of the four host-component handlers
if and only if `componentNameFormatted` is set (a non-empty string), and to one of the five
host handlers otherwise. -/
theorem bulkOperation_scope_iff_componentNameFormatted (operationData : OperationData)
    (hosts : List Host) :
    ∃ handler, bulkOperation operationData hosts = [⟨handler, operationData, hosts⟩] ∧
      (handler.scope = Scope.component ↔ truthy operationData.componentNameFormatted = true) ∧
      (handler.scope = Scope.host ↔ truthy operationData.componentNameFormatted = false) := by
  unfold bulkOperation
  by_cases hs : truthy operationData.componentNameFormatted = true
  · by_cases h1 : operationData.action = "RESTART"
    · exact ⟨Handler.bulkOperationForHostComponentsRestart, by simp [hs, h1],
        by simp [Handler.scope, hs], by simp [Handler.scope, hs]⟩
    · by_cases h2 : operationData.action = "ADD"
      · exact ⟨Handler.bulkOperationForHostComponentsAdd, by simp [hs, h2],
          by simp [Handler.scope, hs], by simp [Handler.scope, hs]⟩
      · by_cases h3 : indexOf operationData.action "DECOMMISSION" = -1
        · exact ⟨Handler.bulkOperationForHostComponents, by simp [hs, h1, h2, h3],
            by simp [Handler.scope, hs], by simp [Handler.scope, hs]⟩
        · exact ⟨Handler.bulkOperationForHostComponentsDecommission, by simp [hs, h1, h2, h3],
            by simp [Handler.scope, hs], by simp [Handler.scope, hs]⟩
  · by_cases h1 : operationData.action = "SET_RACK_INFO"
    · exact ⟨Handler.bulkOperationForHostsSetRackInfo, by simp [hs, h1],
        by simp [Handler.scope, hs], by simp [Handler.scope, hs]⟩
    · by_cases h2 : operationData.action = "RESTART"
      · exact ⟨Handler.bulkOperationForHostsRestart, by simp [hs, h2],
          by simp [Handler.scope, hs], by simp [Handler.scope, hs]⟩
      · by_cases h3 : operationData.action = "REINSTALL"
        · exact ⟨Handler.bulkOperationForHostsReinstall, by simp [hs, h3],
            by simp [Handler.scope, hs], by simp [Handler.scope, hs]⟩
        · by_cases h4 : operationData.action = "PASSIVE_STATE"
          · exact ⟨Handler.bulkOperationForHostsPassiveState, by simp [hs, h4],
              by simp [Handler.scope, hs], by simp [Handler.scope, hs]⟩
          · exact ⟨Handler.bulkOperationForHosts, by simp [hs, h1, h2, h3, h4],
              by simp [Handler.scope, hs], by simp [Handler.scope, hs]⟩

/-- C7: for every decommission-polarity request (its action does not contain `OFF`) that
names its slave component, on a service other than HBASE, with a non-empty list of snapshots
(the array `components`), the callback sends the request `bulk_request.decommission` whose
parameter `excluded_hosts` is the comma-joined list of the host names of the snapshots whose
`workStatus` is `STARTED`, in snapshot order. -/
theorem decommission_excluded_hosts (env : Env) (operationData : OperationData)
    (items : List HostJson) (slave : String)
    (hpolarity : indexOf operationData.action "OFF" = -1)
    (hservice : operationData.serviceName ≠ some "HBASE")
    (hsnapshots : decommissionComponents items ≠ [])
    (hslave : operationData.realComponentName = some slave) :
    _getComponentsFromServerForHostComponentsDecommissionCallBack env operationData
        { items := some items }
      = Outcome.ajaxSend
          { name := "bulk_request.decommission"
            data :=
              [("context", Val.str (env.t ("hosts.host." ++ toLowerCase slave ++
                  ".decommission"))),
               ("serviceName", Val.ofOption (env.service operationData.serviceName).serviceName),
               ("componentName", Val.ofOption operationData.componentName),
               ("parameters", Val.obj
                  [("slave_type", slave),
                   ("excluded_hosts",
                    join (((decommissionComponents items).filter
                      (fun c => c.workStatus = some "STARTED")).map (fun c => c.hostName))
                      ",")]),
               ("noOpsMessage", Val.ofOption operationData.componentNameFormatted)]
            success := some "bulkOperationForHostComponentsSuccessCallback"
            error := none
            showLoadingPopup := false } := by
  have hlen : (decommissionComponents items).length ≠ 0 := by
    intro h
    exact hsnapshots (List.length_eq_zero.1 h)
  simp only [_getComponentsFromServerForHostComponentsDecommissionCallBack, hlen, hpolarity,
    hservice, hslave, ne_eq, not_true_eq_false, not_false_eq_true, decide_False, decide_True,
    if_true, if_false, Bool.false_eq_true, List.cons_append, List.nil_append]

/-- C7, at the snapshots `h1: STARTED, h2: INSTALLED` of `DATANODE`: `excluded_hosts` is
`h1`. -/
theorem decommission_excluded_hosts_witness :
    _getComponentsFromServerForHostComponentsDecommissionCallBack Env.sample
        { action := "DECOMMISSION", componentName := some "NAMENODE",
          realComponentName := some "DATANODE", componentNameFormatted := some "DataNodes",
          serviceName := some "HDFS", message := "Decommission", state := none }
        { items := some
            [HostJson.single "h1" "DATANODE" (some "STARTED"),
             HostJson.single "h2" "DATANODE" (some "INSTALLED")] }
      = Outcome.ajaxSend
          { name := "bulk_request.decommission"
            data :=
              [("context", Val.str "hosts.host.datanode.decommission"),
               ("serviceName", Val.undefined),
               ("componentName", Val.str "NAMENODE"),
               ("parameters", Val.obj [("slave_type", "DATANODE"), ("excluded_hosts", "h1")]),
               ("noOpsMessage", Val.str "DataNodes")]
            success := some "bulkOperationForHostComponentsSuccessCallback"
            error := none
            showLoadingPopup := false } :=
  decommission_excluded_hosts Env.sample
    { action := "DECOMMISSION", componentName := some "NAMENODE",
      realComponentName := some "DATANODE", componentNameFormatted := some "DataNodes",
      serviceName := some "HDFS", message := "Decommission", state := none }
    [HostJson.single "h1" "DATANODE" (some "STARTED"),
     HostJson.single "h2" "DATANODE" (some "INSTALLED")]
    "DATANODE" (by decide) (by decide) (by decide) rfl

/-- C8, the code at an HBASE decommission request with the snapshots `h1: STARTED,
h2: INSTALLED`: the hosts handed to `warnBeforeDecommission` are `h1,h2`, the hosts of all the
snapshots, whereas the hosts of the snapshots whose `workStatus` is `STARTED` are `h1`. -/
theorem hbase_decommission_warns_with_all_hosts :
    _getComponentsFromServerForHostComponentsDecommissionCallBack Env.sample
        { action := "DECOMMISSION", componentName := some "HBASE_MASTER",
          realComponentName := some "HBASE_REGIONSERVER",
          componentNameFormatted := some "RegionServers",
          serviceName := some "HBASE", message := "Decommission", state := none }
        { items := some
            [HostJson.single "h1" "HBASE_REGIONSERVER" (some "STARTED"),
             HostJson.single "h2" "HBASE_REGIONSERVER" (some "INSTALLED")] }
      = warnBeforeDecommission "h1,h2"
    ∧ join (((decommissionComponents
          [HostJson.single "h1" "HBASE_REGIONSERVER" (some "STARTED"),
           HostJson.single "h2" "HBASE_REGIONSERVER" (some "INSTALLED")]).filter
        (fun c => c.workStatus = some "STARTED")).map (fun c => c.hostName)) "," = "h1"
    ∧ warnBeforeDecommission "h1,h2" ≠ warnBeforeDecommission "h1" := by
  refine ⟨by decide, by decide, by decide⟩

/-- C9: `warnBeforeDecommissionSuccess` calls `checkRegionServerState` with the queried host
names if and only if the active-RegionServer query returned no items, and calls
`showHbaseActiveWarning`, and nothing else, if and only if it returned at least one. -/
theorem warnBeforeDecommissionSuccess_gate (data : ComponentsResponse)
    (params : RegionServerParams) :
    (warnBeforeDecommissionSuccess data params = Outcome.checkRegionServerState params.hostNames
      ↔ data.items.getD [] = [])
    ∧ (warnBeforeDecommissionSuccess data params = Outcome.showHbaseActiveWarning
      ↔ data.items.getD [] ≠ []) := by
  obtain ⟨items⟩ := data
  cases items with
  | none => simp [warnBeforeDecommissionSuccess, itemsLength]
  | some items =>
    cases items with
    | nil => simp [warnBeforeDecommissionSuccess, itemsLength]
    | cons x xs => simp [warnBeforeDecommissionSuccess, itemsLength]

/-- C10: for every structured delete response, the dry-run callback and the delete callback
build the same two lists: the entries of `deleteResult` whose `deleted` is truthy, in order,
and one object per other entry, in order, carrying that entry's `error`; the lengths of the two
lists add up to the length of `deleteResult`; the delete callback shows them in its result
popup; and `h1: deleted, h2: error 409 "in use"` yields `h1` deleted and `h2` undeletable with
code 409. -/
theorem deleteResult_partition (env : Env) (data : DeleteResponse) (params : DeleteParams) :
    deleteDryRunLists (DeleteCallbackArgs.success (some data) params)
      = some (data.deleteResult.filter (fun h => h.deleted.truthy),
          (data.deleteResult.filter (fun h => !h.deleted.truthy)).map
            (fun h => { error := h.error, isCollapsed := true }))
    ∧ deleteLists (DeleteCallbackArgs.success (some data) params)
      = some (data.deleteResult.filter (fun h => h.deleted.truthy),
          (data.deleteResult.filter (fun h => !h.deleted.truthy)).map
            (fun h => { error := h.error, isCollapsed := true }))
    ∧ (data.deleteResult.filter (fun h => h.deleted.truthy)).length
        + ((data.deleteResult.filter (fun h => !h.deleted.truthy)).map
            (fun h => ({ error := h.error, isCollapsed := true } : UndeletableHost))).length
      = data.deleteResult.length
    ∧ bulkOperationForHostsDeleteCallback env (DeleteCallbackArgs.success (some data) params)
      = Outcome.deleteResultPopup
          (env.t "hosts.bulkOperation.deleteHosts.result.header")
          (env.format (env.t "hosts.bulkOperation.deleteHosts.dryRun.message")
            [toString ((data.deleteResult.filter (fun h => !h.deleted.truthy)).length)])
          ((data.deleteResult.filter (fun h => !h.deleted.truthy)).map
            (fun h => { error := h.error, isCollapsed := true }))
          (data.deleteResult.filter (fun h => h.deleted.truthy))
    ∧ deleteDryRunLists (DeleteCallbackArgs.success (some
          { deleteResult :=
              [{ host_name := some "h1", deleted := DeletedField.bool true, error := none },
               { host_name := some "h2", deleted := DeletedField.bool false,
                 error := some { key := none, code := some 409, message := some "in use" } }] })
          params)
      = some ([{ host_name := some "h1", deleted := DeletedField.bool true, error := none }],
          [{ error := some { key := none, code := some 409, message := some "in use" },
             isCollapsed := true }]) := by
  have hlists : data.deleteResult.foldl deleteResultStep ([], [])
      = (data.deleteResult.filter (fun h => h.deleted.truthy),
          (data.deleteResult.filter (fun h => !h.deleted.truthy)).map
            (fun h => { error := h.error, isCollapsed := true })) := by
    rw [foldl_deleteResultStep]
    simp
  refine ⟨?_, ?_, ?_, ?_, rfl⟩
  · simp only [deleteDryRunLists, hlists]
  · simp only [deleteLists, hlists]
  · rw [List.length_map]
    induction data.deleteResult with
    | nil => rfl
    | cons x xs ih =>
      by_cases hx : x.deleted.truthy = true
      · simp [List.filter_cons, hx] at ih ⊢
        omega
      · simp [List.filter_cons, hx] at ih ⊢
        omega
  · simp only [bulkOperationForHostsDeleteCallback, deleteLists, hlists, List.length_map]

/-- C11, counterexample: on the failure path (error callback with `textStatus` `"error"`) for
the targeted host `h1`, the deletable list of the dry-run callback and the deleted list of the
delete callback are empty and the undeletable list holds the host. -/
theorem delete_failure_path_is_undeletable :
    deleteDryRunLists (DeleteCallbackArgs.error "error"
        (some { status := some 500, message := some "Server Error" }) { hosts := ["h1"] })
      = some ([], [{ error := some { key := some "h1", code := some 500,
                                     message := some "Server Error" },
                     isCollapsed := true }])
    ∧ deleteLists (DeleteCallbackArgs.error "error"
        (some { status := some 500, message := some "Server Error" }) { hosts := ["h1"] })
      = some ([], [{ error := some { key := some "h1", code := some 500,
                                     message := some "Server Error" },
                     isCollapsed := true }]) := by
  constructor <;> decide

/-- C11, amended: when a dry-run or delete request succeeds without a payload, the deletable
list of the dry-run callback and the deleted list of the delete callback hold exactly the
targeted host `params.hosts[0]` and the undeletable list is empty; on the failure path the
targeted host is the only entry of the undeletable list, with the status and message of the
response, and the other list is empty. -/
theorem delete_lists_without_structured_result (params : DeleteParams)
    (response : ErrorResponse) :
    deleteDryRunLists (DeleteCallbackArgs.success none params)
      = some ([{ host_name := none, deleted := DeletedField.info params.hosts[0]?,
                 error := none }], [])
    ∧ deleteLists (DeleteCallbackArgs.success none params)
      = some ([{ host_name := none, deleted := DeletedField.info params.hosts[0]?,
                 error := none }], [])
    ∧ deleteDryRunLists (DeleteCallbackArgs.error "error" (some response) params)
      = some ([], [{ error := some { key := params.hosts[0]?, code := response.status,
                                     message := response.message },
                     isCollapsed := true }])
    ∧ deleteLists (DeleteCallbackArgs.error "error" (some response) params)
      = some ([], [{ error := some { key := params.hosts[0]?, code := response.status,
                                     message := response.message },
                     isCollapsed := true }]) := by
  refine ⟨rfl, rfl, ?_, ?_⟩
  · simp [deleteDryRunLists]
  · simp [deleteLists]

/-- C12, counterexample: for the dry-run response `h1: deleted true, h2: error 409`, whose
deletable subset is `h1`, the request sent when the user presses the primary button of the
popup and confirms names no host: its query is `Hosts/host_name.in()`. -/
theorem dryRun_primary_names_no_host_without_key :
    (bulkOperationForHostsDeleteDryRunCallback Env.sample
        (DeleteCallbackArgs.success (some { deleteResult :=
          [{ host_name := some "h1", deleted := DeletedField.bool true, error := none },
           { host_name := some "h2", deleted := DeletedField.bool false,
             error := some { key := none, code := some 409, message := some "in use" } }] })
          { hosts := ["h1", "h2"] })).requests
        { sessionState := true, checkpoint := true, primary := true, setting := true }
      = [{ name := "common.hosts.delete"
           data := [("query", Val.str "Hosts/host_name.in()"), ("hosts", Val.list [none])]
           success := some "bulkOperationForHostsDeleteCallback"
           error := some "bulkOperationForHostsDeleteCallback"
           showLoadingPopup := true }] := by
  decide

/-- C12, amended: after partitioning a structured dry-run response into the deletable hosts
and the undeletable hosts, the dry-run callback calls `bulkOperationForHostsDelete` on the
deletable hosts directly when no host is undeletable and at least one is deletable; when a
host is undeletable it shows the dry-run popup instead, whose primary action is
`bulkOperationForHostsDelete` on the deletable hosts. The only request that can follow is the
delete request that names, for each deletable entry in order, the `key` of its `deleted`
object (nothing for an entry whose `deleted` is not an object with a key), sent once the
session-state check has run its callback and the user has confirmed; when every deletable
entry is `deleted: {key: k}` the request names exactly those keys, as for
`h1: deleted {key: h1}, h2: deleted {key: h2}, h3: error 409`, where it names `h1,h2`. -/
theorem dryRunCallback_deletes_by_key (env : Env) (data : DeleteResponse)
    (params : DeleteParams) :
    let deletableHosts := data.deleteResult.filter (fun h => h.deleted.truthy)
    let undeletableHosts : List UndeletableHost :=
      (data.deleteResult.filter (fun h => !h.deleted.truthy)).map
        (fun h => { error := h.error, isCollapsed := true })
    let keys : List (Option String) :=
      deletableHosts.map (fun h =>
        match h.deleted with
        | DeletedField.info key => key
        | _ => none)
    let request : AjaxRequest :=
      { name := "common.hosts.delete"
        data :=
          [("query", Val.str ("Hosts/host_name.in(" ++
              join (keys.map (fun key => key.getD "")) "," ++ ")")),
           ("hosts", Val.list keys)]
        success := some "bulkOperationForHostsDeleteCallback"
        error := some "bulkOperationForHostsDeleteCallback"
        showLoadingPopup := true }
    bulkOperationForHostsDeleteDryRunCallback env (DeleteCallbackArgs.success (some data) params)
      = (if undeletableHosts = [] then
          (if deletableHosts = [] then Outcome.noEffect
           else bulkOperationForHostsDelete env deletableHosts)
        else
          Outcome.deleteDryRunPopup
            (env.t "hosts.bulkOperation.deleteHosts.dryRun.header")
            (if deletableHosts = [] then none
             else some (env.format (env.t "hosts.bulkOperation.deleteHosts.dryRun.primary")
               [toString deletableHosts.length]))
            (env.format (env.t "hosts.bulkOperation.deleteHosts.dryRun.message")
              [toString undeletableHosts.length])
            undeletableHosts
            (bulkOperationForHostsDelete env deletableHosts))
    ∧ (∀ r : Responses,
        (bulkOperationForHostsDeleteDryRunCallback env
            (DeleteCallbackArgs.success (some data) params)).requests r
          = if undeletableHosts = [] ∧ deletableHosts = [] then []
            else if r.sessionState = true ∧ r.primary = true then [request]
            else [])
    ∧ (∀ ks : List String,
        deletableHosts.map (fun h => h.deleted) = ks.map (fun k => DeletedField.info (some k)) →
          request =
            { name := "common.hosts.delete"
              data :=
                [("query", Val.str ("Hosts/host_name.in(" ++ join ks "," ++ ")")),
                 ("hosts", Val.list (ks.map (fun k => some k)))]
              success := some "bulkOperationForHostsDeleteCallback"
              error := some "bulkOperationForHostsDeleteCallback"
              showLoadingPopup := true })
    ∧ (bulkOperationForHostsDeleteDryRunCallback Env.sample
          (DeleteCallbackArgs.success (some { deleteResult :=
            [{ host_name := none, deleted := DeletedField.info (some "h1"), error := none },
             { host_name := none, deleted := DeletedField.info (some "h2"), error := none },
             { host_name := none, deleted := DeletedField.absent,
               error := some { key := some "h3", code := some 409,
                               message := some "in use" } }] })
            { hosts := ["h1", "h2", "h3"] })).requests
          { sessionState := true, checkpoint := true, primary := true, setting := true }
        = [{ name := "common.hosts.delete"
             data := [("query", Val.str "Hosts/host_name.in(h1,h2)"),
                      ("hosts", Val.list [some "h1", some "h2"])]
             success := some "bulkOperationForHostsDeleteCallback"
             error := some "bulkOperationForHostsDeleteCallback"
             showLoadingPopup := true }] := by
  intro deletableHosts undeletableHosts keys request
  have hlists : data.deleteResult.foldl deleteResultStep ([], [])
      = (deletableHosts, undeletableHosts) := by
    rw [foldl_deleteResultStep]
    simp [deletableHosts, undeletableHosts]
  have hkeys : deletableHosts.map (fun h => h.deleted.key) = keys := by
    apply List.map_congr_left
    intro h _
    cases h.deleted <;> rfl
  have hdelete : ∀ r : Responses, (bulkOperationForHostsDelete env deletableHosts).requests r
      = if r.sessionState = true ∧ r.primary = true then [request] else [] := by
    intro r
    have hreq : Outcome.requests r (bulkOperationForHostsDelete env deletableHosts)
        = if r.sessionState = true then (if r.primary = true then [request] else []) else [] := by
      simp only [bulkOperationForHostsDelete, Outcome.requests, hkeys, joinOpt, request, join]
    rw [hreq]
    cases r.sessionState <;> cases r.primary <;> simp
  have hout : bulkOperationForHostsDeleteDryRunCallback env
      (DeleteCallbackArgs.success (some data) params)
      = (if undeletableHosts = [] then
          (if deletableHosts = [] then Outcome.noEffect
           else bulkOperationForHostsDelete env deletableHosts)
        else
          Outcome.deleteDryRunPopup
            (env.t "hosts.bulkOperation.deleteHosts.dryRun.header")
            (if deletableHosts = [] then none
             else some (env.format (env.t "hosts.bulkOperation.deleteHosts.dryRun.primary")
               [toString deletableHosts.length]))
            (env.format (env.t "hosts.bulkOperation.deleteHosts.dryRun.message")
              [toString undeletableHosts.length])
            undeletableHosts
            (bulkOperationForHostsDelete env deletableHosts)) := by
    simp only [bulkOperationForHostsDeleteDryRunCallback, deleteDryRunLists, hlists]
    by_cases hu : undeletableHosts = []
    · by_cases hd : deletableHosts = []
      · simp [hu, hd]
      · simp [hu, hd]
    · by_cases hd : deletableHosts = []
      · simp [hu, hd]
      · simp [hu, hd]
  refine ⟨hout, ?_, ?_, by decide⟩
  · intro r
    rw [hout]
    by_cases hu : undeletableHosts = []
    · by_cases hd : deletableHosts = []
      · simp [hu, hd, Outcome.requests]
      · rw [if_pos hu, if_neg hd, hdelete r]
        simp [hu, hd]
    · rw [if_neg hu]
      have hne : ¬ (undeletableHosts = [] ∧ deletableHosts = []) := fun h => hu h.1
      rw [if_neg hne]
      show (if r.primary = true then
        (bulkOperationForHostsDelete env deletableHosts).requests r else []) = _
      rw [hdelete r]
      cases r.sessionState <;> cases r.primary <;> simp
  · intro ks hks
    have hk : keys = ks.map (fun k => some k) := by
      have h1 : keys = (deletableHosts.map (fun h => h.deleted)).map
          (fun d => match d with
            | DeletedField.info key => key
            | _ => none) := by
        simp [keys, List.map_map, Function.comp_def]
      rw [h1, hks, List.map_map]
      rfl
    simp only [request, hk, List.map_map, Function.comp_def, Option.getD_some, List.map_id']

/-- C13: each of the four workflows reinstall, add-component, dry-run delete and delete is a
call of `getKDCSessionState` with a callback; when the session-state check does not run the
callback no request is sent, whatever the other answers; and when it runs the callback (and,
for delete, the user confirms) the one request of the workflow is sent. -/
theorem requests_only_inside_session_callback (env : Env) (operationData : OperationData)
    (hosts : List Host) (hostNames : List String) (deletableHosts : List DeleteResultEntry)
    (checkpoint primary setting : Bool) :
    ((∃ callback, bulkOperationForHostsReinstall env operationData hosts
        = Outcome.getKDCSessionState callback)
      ∧ (∃ callback, bulkAddHostComponents operationData hostNames
        = Outcome.getKDCSessionState callback)
      ∧ (∃ callback, bulkOperationForHostsDeleteDryRun operationData hosts
        = Outcome.getKDCSessionState callback)
      ∧ (∃ callback, bulkOperationForHostsDelete env deletableHosts
        = Outcome.getKDCSessionState callback))
    ∧ ((bulkOperationForHostsReinstall env operationData hosts).requests
          ⟨false, checkpoint, primary, setting⟩ = []
      ∧ (bulkAddHostComponents operationData hostNames).requests
          ⟨false, checkpoint, primary, setting⟩ = []
      ∧ (bulkOperationForHostsDeleteDryRun operationData hosts).requests
          ⟨false, checkpoint, primary, setting⟩ = []
      ∧ (bulkOperationForHostsDelete env deletableHosts).requests
          ⟨false, checkpoint, primary, setting⟩ = [])
    ∧ (((bulkOperationForHostsReinstall env operationData hosts).requests
          ⟨true, checkpoint, primary, setting⟩).length = 1
      ∧ ((bulkAddHostComponents operationData hostNames).requests
          ⟨true, checkpoint, primary, setting⟩).length = 1
      ∧ ((bulkOperationForHostsDeleteDryRun operationData hosts).requests
          ⟨true, checkpoint, primary, setting⟩).length = 1
      ∧ ((bulkOperationForHostsDelete env deletableHosts).requests
          ⟨true, checkpoint, true, setting⟩).length = 1) := by
  refine ⟨⟨⟨_, rfl⟩, ⟨_, rfl⟩, ⟨_, rfl⟩, ⟨_, rfl⟩⟩, ⟨rfl, rfl, rfl, rfl⟩, ⟨rfl, rfl, rfl, rfl⟩⟩

/-- C15, counterexample: for a response with a payload and status 200, when the setting
`show_bg` loads as not truthy, `backgroundOperationsController.showPopup()` is not called,
although the request created work. -/
theorem successCallback_setting_off_no_popup :
    (bulkOperationForHostComponentsSuccessCallback Env.sample (some { requestId := some 12 })
        (some "DataNodes") 200).showsBackgroundOperations
      { sessionState := true, checkpoint := true, primary := true, setting := false } = false
    ∧ bulkOperationForHostComponentsSuccessCallback Env.sample (some { requestId := some 12 })
        (some "DataNodes") 200
      ≠ nothingToDo Env.sample (Env.sample.format (Env.sample.t "rolling.nothingToDo.body")
          ["DataNodes"]) := by
  constructor <;> decide

/-- C15, amended: `bulkOperationForHostComponentsSuccessCallback` shows the "nothing to do"
popup exactly when the payload is absent and the status is 200; in every other case it loads
the user setting `show_bg` and calls `backgroundOperationsController.showPopup()` if and only
if the loaded value is truthy. -/
theorem successCallback_background_operations (env : Env) (data : Option UpdateResponse)
    (noOpsMessage : Option String) (status : Int) (r : Responses) :
    (bulkOperationForHostComponentsSuccessCallback env data noOpsMessage status
        = Outcome.dataLoading "show_bg" Outcome.showBackgroundOperationsPopup
      ↔ ¬ (data = none ∧ status = 200))
    ∧ (bulkOperationForHostComponentsSuccessCallback env data noOpsMessage status
        = nothingToDo env (env.format (env.t "rolling.nothingToDo.body")
            [if truthy noOpsMessage then jsString noOpsMessage
             else env.t "hosts.host.maintainance.allComponents.context"])
      ↔ (data = none ∧ status = 200))
    ∧ ((bulkOperationForHostComponentsSuccessCallback env data noOpsMessage
          status).showsBackgroundOperations r = true
      ↔ ¬ (data = none ∧ status = 200) ∧ r.setting = true) := by
  unfold bulkOperationForHostComponentsSuccessCallback
  by_cases h : data = none ∧ status = 200
  · simp [h, nothingToDo, Outcome.showsBackgroundOperations]
  · simp [h, nothingToDo, Outcome.showsBackgroundOperations]

/-! ## Lemmas and theorems on the controller's operations and on `alerts` -/

theorem loadedIffAllDone_updateLoadStatus (c : ClusterController) (item : String) :
    loadedIffAllDone (updateLoadStatus c item) := by
  unfold loadedIffAllDone updateLoadStatus
  simp only [foldl_updateLoadStatusStep_true, List.all_eq_true]

theorem loadedIffAllDone_run (ops : List ControllerOperation)
    (hops : ∀ op ∈ ops, op ≠ ControllerOperation.loadClusterNameError) :
    loadedIffAllDone (ClusterState.initial.run ops).controller := by
  induction ops using List.reverseRecOn with
  | nil =>
    unfold loadedIffAllDone
    constructor
    · intro h
      exact absurd h (by decide)
    · intro h
      exact absurd (h ("hosts", false) (by decide)) (by decide)
  | append_singleton ops op ih =>
    have ih1 := ih (fun o ho => hops o (List.mem_append_left _ ho))
    have hop : op ≠ ControllerOperation.loadClusterNameError := hops op (by simp)
    unfold ClusterState.run at ih1 ⊢
    rw [List.foldl_append, List.foldl_cons, List.foldl_nil]
    cases op with
    | updateLoadStatus item => exact loadedIffAllDone_updateLoadStatus _ item
    | loadClusterNameSuccess items => exact ih1
    | loadClusterNameError => exact absurd rfl hop

/-- C16, counterexample: after the `error` handler of `loadClusterName` runs on the declared
controller, `isLoaded` is true while no entry of `dataLoadList` is. -/
theorem error_handler_breaks_loaded_invariant :
    (ClusterState.initial.run [ControllerOperation.loadClusterNameError]).controller.isLoaded
      = true
    ∧ (ClusterState.initial.run [ControllerOperation.loadClusterNameError]).controller.dataLoadList
      = [("hosts", false), ("runs", false), ("services", false), ("cluster", false),
         ("racks", false), ("alerts", false), ("users", false)]
    ∧ ¬ loadedIffAllDone
        (ClusterState.initial.run [ControllerOperation.loadClusterNameError]).controller := by
  refine ⟨rfl, rfl, ?_⟩
  intro h
  have hall := h.1 rfl
  exact absurd (hall ("hosts", false) (by decide)) (by decide)

/-- C16, amended: in every state reached from the declared controller by calls of
`updateLoadStatus` and runs of the `success` handler of `loadClusterName`, `isLoaded` is true
if and only if every entry of `dataLoadList` is true; the same holds right after any call of
`updateLoadStatus`, whatever came before; the `error` handler sets `isLoaded` to true and
leaves `dataLoadList` as it is. -/
theorem loaded_invariant_without_error_handler :
    (∀ ops : List ControllerOperation,
      (∀ op ∈ ops, op ≠ ControllerOperation.loadClusterNameError) →
        loadedIffAllDone (ClusterState.initial.run ops).controller)
    ∧ (∀ (s : ClusterState) (item : String),
        loadedIffAllDone (s.step (ControllerOperation.updateLoadStatus item)).controller)
    ∧ (∀ s : ClusterState,
        (s.step ControllerOperation.loadClusterNameError).controller.isLoaded = true
        ∧ (s.step ControllerOperation.loadClusterNameError).controller.dataLoadList
          = s.controller.dataLoadList) :=
  ⟨loadedIffAllDone_run, fun s item => loadedIffAllDone_updateLoadStatus s.controller item,
    fun _ => ⟨rfl, rfl⟩⟩

theorem set_of_not_mem (item : String) :
    ∀ l : LoadList, (∀ entry ∈ l, entry.1 ≠ item) → LoadList.set l item true = l ++ [(item, true)]
  | [], _ => rfl
  | (k, v) :: rest, h => by
    have hk : k ≠ item := h (k, v) (by simp)
    have hrest : ∀ entry ∈ rest, entry.1 ≠ item :=
      fun e he => h e (List.mem_cons_of_mem _ he)
    simp only [LoadList.set, if_neg hk, List.cons_append]
    rw [set_of_not_mem item rest hrest]

/-- C17, counterexample: `updateLoadStatus('jobs')` on the declared controller adds the entry
`jobs: true` to `dataLoadList`. -/
theorem updateLoadStatus_unregistered_adds_entry :
    (updateLoadStatus ClusterController.initial "jobs").dataLoadList
      = [("hosts", false), ("runs", false), ("services", false), ("cluster", false),
         ("racks", false), ("alerts", false), ("users", false), ("jobs", true)]
    ∧ (updateLoadStatus ClusterController.initial "jobs").dataLoadList
      ≠ ClusterController.initial.dataLoadList := by
  constructor <;> decide

/-- C17, amended: for a task name that is a plain property name (no dot, not a string of
digits, not a name the object inherits or Ember keeps for itself) and is not a key of
`dataLoadList`, `updateLoadStatus` adds it as a new last entry with value true, leaves every
other entry as it is, and sets `isLoaded` to true exactly when every entry that was there
before is true. -/
theorem updateLoadStatus_unregistered (c : ClusterController) (item : String)
    (_hplain : plainKey item = true)
    (hnew : ∀ entry ∈ c.dataLoadList, entry.1 ≠ item) :
    (updateLoadStatus c item).dataLoadList = c.dataLoadList ++ [(item, true)]
    ∧ ((updateLoadStatus c item).isLoaded = true ↔ ∀ entry ∈ c.dataLoadList, entry.2 = true) := by
  have hset := set_of_not_mem item c.dataLoadList hnew
  constructor
  · exact hset
  · have hinv := loadedIffAllDone_updateLoadStatus c item
    unfold loadedIffAllDone at hinv
    rw [hinv]
    show (∀ entry ∈ LoadList.set c.dataLoadList item true, entry.2 = true) ↔ _
    rw [hset]
    constructor
    · intro h e he
      exact h e (List.mem_append_left _ he)
    · intro h e he
      rcases List.mem_append.1 he with he | he
      · exact h e he
      · rw [List.mem_singleton.1 he]

/-- C17, amended, at the declared controller and the name `jobs`. -/
theorem updateLoadStatus_unregistered_witness :
    (updateLoadStatus ClusterController.initial "jobs").dataLoadList
      = ClusterController.initial.dataLoadList ++ [("jobs", true)]
    ∧ ((updateLoadStatus ClusterController.initial "jobs").isLoaded = true
      ↔ ∀ entry ∈ ClusterController.initial.dataLoadList, entry.2 = true) :=
  updateLoadStatus_unregistered ClusterController.initial "jobs" (by decide) (by decide)

theorem precedes_status {left right : Alert} (h : precedes alertsComparator left right) :
    right.status ≤ left.status := by
  unfold precedes alertsComparator at h
  by_cases h1 : right.status - left.status = 0
  · omega
  · by_cases h2 : left.status - right.status = 0
    · omega
    · simp only [h1, h2, if_false] at h
      omega

theorem transGen_precedes_status {left right : Alert}
    (h : Relation.TransGen (precedes alertsComparator) left right) :
    right.status ≤ left.status := by
  induction h with
  | single h1 => exact precedes_status h1
  | tail _ h2 ih => exact Int.le_trans (precedes_status h2) ih

theorem sortInsert_perm {α : Type} (comparefn : α → α → Int) (element : α) :
    ∀ l : List α, (sortInsert comparefn element l).Perm (element :: l)
  | [] => List.Perm.refl _
  | tmp :: rest => by
    unfold sortInsert
    split
    · exact ((sortInsert_perm comparefn element rest).cons tmp).trans (List.Perm.swap _ _ _)
    · exact List.Perm.refl _

theorem insertionSort_perm {α : Type} (comparefn : α → α → Int) (array : List α) :
    (insertionSort comparefn array).Perm array := by
  unfold insertionSort
  have key : ∀ (l acc : List α),
      (l.foldl (fun sorted element => sortInsert comparefn element sorted) acc).Perm
        (l.reverse ++ acc) := by
    intro l
    induction l with
    | nil => intro acc; exact List.Perm.refl _
    | cons x xs ih =>
      intro acc
      rw [List.foldl_cons, List.reverse_cons, List.append_assoc]
      refine (ih _).trans ?_
      exact List.Perm.append_left _ (sortInsert_perm comparefn x acc)
  have h := key array []
  rw [List.append_nil] at h
  exact (List.reverse_perm _).trans (h.trans (List.reverse_perm _))

theorem sortInsert_chain {α : Type} (comparefn : α → α → Int) (element : α) :
    ∀ l : List α, l.Chain' (fun x y => precedes comparefn y x) →
      (sortInsert comparefn element l).Chain' (fun x y => precedes comparefn y x)
  | [], _ => by simp [sortInsert]
  | tmp :: rest, h => by
    unfold sortInsert
    by_cases hc : comparefn tmp element > 0
    · rw [if_pos hc, List.chain'_cons']
      refine ⟨?_, sortInsert_chain comparefn element rest h.tail⟩
      intro y hy
      have hte : precedes comparefn element tmp := Or.inr (Int.le_of_lt hc)
      cases rest with
      | nil =>
        simp only [sortInsert, List.head?_cons, Option.mem_def, Option.some.injEq] at hy
        rw [← hy]
        exact hte
      | cons r rest' =>
        have htr : precedes comparefn r tmp := (List.chain'_cons.1 h).1
        unfold sortInsert at hy
        by_cases hr : comparefn r element > 0
        · rw [if_pos hr] at hy
          simp only [List.head?_cons, Option.mem_def, Option.some.injEq] at hy
          rw [← hy]
          exact htr
        · rw [if_neg hr] at hy
          simp only [List.head?_cons, Option.mem_def, Option.some.injEq] at hy
          rw [← hy]
          exact hte
    · rw [if_neg hc]
      exact List.Chain'.cons (Or.inl (Int.not_lt.1 hc)) h

/-- Insertion sort returns one of the arrays `sort` may return. -/
theorem sortResult_insertionSort {α : Type} (comparefn : α → α → Int) (array : List α) :
    sortResult comparefn array (insertionSort comparefn array) := by
  refine ⟨insertionSort_perm comparefn array, ?_⟩
  unfold insertionSort
  have key : ∀ (l acc : List α), acc.Chain' (fun x y => precedes comparefn y x) →
      (l.foldl (fun sorted element => sortInsert comparefn element sorted) acc).Chain'
        (fun x y => precedes comparefn y x) := by
    intro l
    induction l with
    | nil => intro acc h; exact h
    | cons x xs ih =>
      intro acc h
      rw [List.foldl_cons]
      exact ih _ (sortInsert_chain comparefn x acc h)
  have hchain := key array [] List.chain'_nil
  rw [List.chain'_reverse]
  refine hchain.imp (fun x y h => ?_)
  show Relation.TransGen (precedes comparefn) y x
  exact Relation.TransGen.single h

/-- C18: for every list of alerts, `alerts` returns an array, and every array it may return,
whatever comparisons the engine's sort makes, is a permutation of the input in which the
status never increases from an alert to any later one; both orders of two alerts of equal
status are among the arrays it may return. -/
theorem alerts_perm_status_nonincreasing (alertsArray : List Alert) :
    (∃ sortedArray, alerts alertsArray sortedArray)
    ∧ (∀ sortedArray, alerts alertsArray sortedArray →
        sortedArray.Perm alertsArray
        ∧ sortedArray.Pairwise (fun a b => b.status ≤ a.status))
    ∧ alerts [{ status := 3, date := some 2000, time := none },
              { status := 3, date := some 1000, time := none }]
        [{ status := 3, date := some 2000, time := none },
         { status := 3, date := some 1000, time := none }]
    ∧ alerts [{ status := 3, date := some 2000, time := none },
              { status := 3, date := some 1000, time := none }]
        [{ status := 3, date := some 1000, time := none },
         { status := 3, date := some 2000, time := none }] := by
  refine ⟨⟨_, sortResult_insertionSort alertsComparator alertsArray⟩, ?_, ?_, ?_⟩
  · intro sortedArray h
    refine ⟨h.1, ?_⟩
    haveI : IsTrans Alert (fun a b => b.status ≤ a.status) :=
      ⟨fun _ _ _ hab hbc => Int.le_trans hbc hab⟩
    have hchain : sortedArray.Chain' (fun a b => b.status ≤ a.status) :=
      h.2.imp (fun _ _ hab => transGen_precedes_status hab)
    exact List.chain'_iff_pairwise.1 hchain
  · refine ⟨List.Perm.refl _, ?_⟩
    refine List.Chain'.cons (Relation.TransGen.single (Or.inr ?_)) (List.chain'_singleton _)
    decide
  · refine ⟨List.Perm.swap _ _ _, ?_⟩
    refine List.Chain'.cons (Relation.TransGen.single (Or.inr ?_)) (List.chain'_singleton _)
    decide

/-- C19, the code at two alerts of status 3: for every two alerts of equal status the
comparator returns the timestamp of the right alert's `date` minus the timestamp of the left
alert's property `time`, so the date of the left alert is never read; with the left alert
dated 2000 and the right one dated 1000, neither having a property `time`, it returns 1000,
not 1000 - 2000; and with the two alerts exchanged it returns 2000, so it puts each of the two
after the other. -/
theorem alertsComparator_reads_time_of_left :
    (∀ left right : Alert, left.status = right.status →
      alertsComparator left right = right.date.getD 0 - left.time.getD 0)
    ∧ alertsComparator { status := 3, date := some 2000, time := none }
        { status := 3, date := some 1000, time := none } = 1000
    ∧ alertsComparator { status := 3, date := some 1000, time := none }
        { status := 3, date := some 2000, time := none } = 2000 := by
  refine ⟨?_, by decide, by decide⟩
  intro left right h
  unfold alertsComparator
  have h0 : right.status - left.status = 0 := by omega
  simp [h0]

/-! ## Lemmas on the generic host state-change -/

theorem buildHostsMap_eq_foldl (clients : List String) (items : List HostJson) :
    buildHostsMap clients items
      = (nonClientComponents clients items).foldl (fun m p => hostsMapPush m p.1 p.2) [] := by
  unfold buildHostsMap nonClientComponents
  have inner : ∀ (hostName : String) (hcs : List HostComponentJson)
      (acc : List (String × List String)),
      hcs.foldl (fun hostsMap hostComponent =>
        if !clients.contains hostComponent.HostRoles.component_name then
          hostsMapPush hostsMap hostName hostComponent.HostRoles.component_name
        else hostsMap) acc
      = ((hcs.filter
          (fun hostComponent => !clients.contains hostComponent.HostRoles.component_name)).map
          (fun hostComponent => (hostName, hostComponent.HostRoles.component_name))).foldl
          (fun m p => hostsMapPush m p.1 p.2) acc := by
    intro hostName hcs
    induction hcs with
    | nil => intro acc; rfl
    | cons hc hcs ih =>
      intro acc
      rw [List.foldl_cons, ih]
      by_cases hcl : hc.HostRoles.component_name ∈ clients
      · simp [List.filter_cons, hcl]
      · simp [List.filter_cons, hcl]
  have outer : ∀ (items : List HostJson) (acc : List (String × List String)),
      items.foldl (fun hostsMap host =>
        host.host_components.foldl (fun hostsMap hostComponent =>
          if !clients.contains hostComponent.HostRoles.component_name then
            hostsMapPush hostsMap host.Hosts.host_name hostComponent.HostRoles.component_name
          else hostsMap) hostsMap) acc
      = (items.flatMap (fun host =>
          (host.host_components.filter
            (fun hostComponent => !clients.contains hostComponent.HostRoles.component_name)).map
            (fun hostComponent =>
              (host.Hosts.host_name, hostComponent.HostRoles.component_name)))).foldl
          (fun m p => hostsMapPush m p.1 p.2) acc := by
    intro items
    induction items with
    | nil => intro acc; rfl
    | cons host items ih =>
      intro acc
      rw [List.foldl_cons, inner, ih, List.flatMap_cons, List.foldl_append]
  exact outer items []

theorem distinctNames_append_singleton (names : List String) (name : String) :
    distinctNames (names ++ [name])
      = if name ∈ distinctNames names then distinctNames names
        else distinctNames names ++ [name] := by
  unfold distinctNames
  rw [List.foldl_append, List.foldl_cons, List.foldl_nil]

theorem mem_distinctNames (names : List String) :
    ∀ x : String, x ∈ distinctNames names ↔ x ∈ names := by
  induction names using List.reverseRecOn with
  | nil => simp [distinctNames]
  | append_singleton names name ih =>
    intro x
    rw [distinctNames_append_singleton]
    by_cases h : name ∈ distinctNames names
    · rw [if_pos h, ih, List.mem_append, List.mem_singleton]
      constructor
      · exact Or.inl
      · rintro (h1 | h1)
        · exact h1
        · rw [h1]; exact (ih name).1 h
    · rw [if_neg h, List.mem_append, List.mem_append, ih]

theorem nodup_distinctNames (names : List String) : (distinctNames names).Nodup := by
  induction names using List.reverseRecOn with
  | nil => simp [distinctNames]
  | append_singleton names name ih =>
    rw [distinctNames_append_singleton]
    by_cases h : name ∈ distinctNames names
    · rw [if_pos h]; exact ih
    · rw [if_neg h]
      exact List.Nodup.append ih (List.nodup_singleton _) (by simpa using h)

theorem hostsMapPush_map (f : String → List String) (hostName componentName : String) :
    ∀ ks : List String, ks.Nodup →
      hostsMapPush (ks.map (fun k => (k, f k))) hostName componentName
        = if hostName ∈ ks then
            ks.map (fun k => (k, if k = hostName then f k ++ [componentName] else f k))
          else ks.map (fun k => (k, f k)) ++ [(hostName, [componentName])]
  | [], _ => by simp [hostsMapPush]
  | k :: ks, hnd => by
    rw [List.nodup_cons] at hnd
    by_cases hk : k = hostName
    · subst hk
      have hrest : ∀ x ∈ ks, (x, f x) = (x, if x = k then f x ++ [componentName] else f x) := by
        intro x hx
        have : x ≠ k := fun h => hnd.1 (h ▸ hx)
        simp [this]
      simp only [List.map_cons, hostsMapPush, if_true, List.mem_cons, true_or]
      rw [List.map_congr_left hrest]
    · have hk' : hostName ≠ k := fun h => hk h.symm
      simp only [List.map_cons, hostsMapPush, if_neg hk, List.mem_cons, hk', false_or]
      rw [hostsMapPush_map f hostName componentName ks hnd.2]
      by_cases hm : hostName ∈ ks
      · simp [hm]
      · simp [hm]

/-- The map `hostsMap` holds, per host with a non-client component and in response order, the
non-client components of the host in response order. -/
theorem foldl_hostsMapPush (pairs : List (String × String)) :
    pairs.foldl (fun m p => hostsMapPush m p.1 p.2) []
      = (distinctNames (pairs.map (fun p => p.1))).map
          (fun h => (h, (pairs.filter (fun p => p.1 = h)).map (fun p => p.2))) := by
  induction pairs using List.reverseRecOn with
  | nil => simp [distinctNames]
  | append_singleton pairs p ih =>
    rw [List.foldl_append, List.foldl_cons, List.foldl_nil, ih,
      hostsMapPush_map _ _ _ _ (nodup_distinctNames _), List.map_append, List.map_cons,
      List.map_nil, distinctNames_append_singleton]
    by_cases hm : p.1 ∈ distinctNames (pairs.map (fun p => p.1))
    · rw [if_pos hm, if_pos hm]
      apply List.map_congr_left
      intro k _
      by_cases hk : k = p.1
      · simp [hk, List.filter_append]
      · have hk' : ¬ p.1 = k := fun h => hk h.symm
        simp [hk, hk', List.filter_append]
    · rw [if_neg hm, if_neg hm, List.map_append, List.map_cons, List.map_nil]
      have hnone : pairs.filter (fun q => decide (q.1 = p.1)) = [] := by
        rw [List.filter_eq_nil_iff]
        intro q hq
        have : q.1 ≠ p.1 := by
          intro h
          apply hm
          rw [mem_distinctNames, ← h]
          exact List.mem_map_of_mem _ hq
        simp [this]
      congr 1
      · apply List.map_congr_left
        intro k hk
        have hk' : ¬ p.1 = k := fun h => hm (h ▸ hk)
        simp [List.filter_append, hk']
      · simp [List.filter_append, hnone]

theorem componentsOf_ne_nil (clients : List String) (items : List HostJson) (h : String)
    (hh : h ∈ hostsWithComponents clients items) : componentsOf clients items h ≠ [] := by
  unfold hostsWithComponents at hh
  rw [mem_distinctNames, List.mem_map] at hh
  obtain ⟨p, hp, hp1⟩ := hh
  unfold componentsOf
  intro hnil
  rw [List.map_eq_nil_iff, List.filter_eq_nil_iff] at hnil
  exact hnil p hp (by simp [hp1])

theorem foldl_hostsQueryStep (m : List (String × List String))
    (hne : ∀ e ∈ m, e.2 ≠ []) (acc : HostsQuery) :
    m.foldl hostsQueryStep acc
      = { query := acc.query ++ m.map (fun e => subQuery e.1 e.2)
          nn_hosts := acc.nn_hosts ++
            (m.filter (fun e => e.2.contains "NAMENODE")).map (fun e => e.1)
          hostNames := acc.hostNames ++ m.map (fun e => e.1) } := by
  induction m generalizing acc with
  | nil => simp
  | cons e m ih =>
    have he : e.2 ≠ [] := hne e (by simp)
    have hlen : e.2.length ≠ 0 := fun h => he (List.length_eq_zero.1 h)
    rw [List.foldl_cons, ih (fun x hx => hne x (List.mem_cons_of_mem _ hx))]
    by_cases hnn : "NAMENODE" ∈ e.2
    · simp [hostsQueryStep, hlen, hnn, subQuery, List.filter_cons]
    · simp [hostsQueryStep, hlen, hnn, subQuery, List.filter_cons]

/-- The outcome of the generic host callback in terms of the hosts of the response that have
a non-client component. -/
theorem hostsCallback_eq (env : Env) (operationData : OperationData) (items : List HostJson) :
    _getComponentsFromServerForHostsCallback env operationData { items := some items }
      = (if hostsWithComponents env.clients items = [] then
          nothingToDo env (env.format (env.t "rolling.nothingToDo.body")
            [env.t "hosts.host.maintainance.allComponents.context"])
        else if operationData.action = "INSTALLED" ∧
            (env.service (some "HDFS")).workStatus = some "STARTED" then
          if ((hostsWithComponents env.clients items).filter
              (fun h => (componentsOf env.clients items h).contains "NAMENODE")).length = 1 then
            Outcome.checkNnLastCheckpointTime
              (hostsUpdateRequest env operationData
                (join ((hostsWithComponents env.clients items).map
                  (fun h => subQuery h (componentsOf env.clients items h))) "|")
                (join (hostsWithComponents env.clients items) ","))
              ((hostsWithComponents env.clients items).filter
                (fun h => (componentsOf env.clients items h).contains "NAMENODE"))[0]?
          else if ((hostsWithComponents env.clients items).filter
              (fun h => (componentsOf env.clients items h).contains "NAMENODE")).length = 2 then
            Outcome.checkNnLastCheckpointTimeHA
              (hostsUpdateRequest env operationData
                (join ((hostsWithComponents env.clients items).map
                  (fun h => subQuery h (componentsOf env.clients items h))) "|")
                (join (hostsWithComponents env.clients items) ","))
          else
            hostsUpdateRequest env operationData
              (join ((hostsWithComponents env.clients items).map
                (fun h => subQuery h (componentsOf env.clients items h))) "|")
              (join (hostsWithComponents env.clients items) ",")
        else
          hostsUpdateRequest env operationData
            (join ((hostsWithComponents env.clients items).map
              (fun h => subQuery h (componentsOf env.clients items h))) "|")
            (join (hostsWithComponents env.clients items) ",")) := by
  have hmap : buildHostsMap env.clients items
      = (hostsWithComponents env.clients items).map
          (fun h => (h, componentsOf env.clients items h)) := by
    rw [buildHostsMap_eq_foldl, foldl_hostsMapPush]
    rfl
  have hne : ∀ e ∈ (hostsWithComponents env.clients items).map
      (fun h => (h, componentsOf env.clients items h)), e.2 ≠ [] := by
    intro e he
    rw [List.mem_map] at he
    obtain ⟨h, hh, rfl⟩ := he
    exact componentsOf_ne_nil _ _ _ hh
  have hvars := foldl_hostsQueryStep _ hne { query := [], nn_hosts := [], hostNames := [] }
  simp only [List.nil_append, List.map_map, List.filter_map] at hvars
  simp only [_getComponentsFromServerForHostsCallback, hmap, hvars]
  by_cases hh : hostsWithComponents env.clients items = []
  · simp [hh]
  · have hst : (some "STARTED" = (env.service (some "HDFS")).workStatus)
        ↔ ((env.service (some "HDFS")).workStatus = some "STARTED") := eq_comm
    simp [hh, hst, Function.comp_def]

theorem restartCallback_eq (env : Env) (items : List HostJson) :
    _getComponentsFromServerForRestartCallback env { items := some items }
      = (if (env.service (some "HDFS")).workStatus = some "STARTED" then
          if ((items.flatMap (fun host => host.host_components.map (fun hostComponent =>
                ({ componentName := hostComponent.HostRoles.component_name,
                   hostName := host.Hosts.host_name } : HostComponentRef)))).filter
              (fun c => c.componentName = "NAMENODE")).length = 1 then
            Outcome.checkNnLastCheckpointTime
              (Outcome.restartHostComponents
                (items.flatMap (fun host => host.host_components.map (fun hostComponent =>
                  ({ componentName := hostComponent.HostRoles.component_name,
                     hostName := host.Hosts.host_name } : HostComponentRef))))
                (env.t "rollingrestart.context.allOnSelectedHosts") "HOST")
              (((items.flatMap (fun host => host.host_components.map (fun hostComponent =>
                ({ componentName := hostComponent.HostRoles.component_name,
                   hostName := host.Hosts.host_name } : HostComponentRef)))).filter
                (fun c => c.componentName = "NAMENODE")).head?.map (fun c => c.hostName))
          else if ((items.flatMap (fun host => host.host_components.map (fun hostComponent =>
                ({ componentName := hostComponent.HostRoles.component_name,
                   hostName := host.Hosts.host_name } : HostComponentRef)))).filter
              (fun c => c.componentName = "NAMENODE")).length = 2 then
            Outcome.checkNnLastCheckpointTimeHA
              (Outcome.restartHostComponents
                (items.flatMap (fun host => host.host_components.map (fun hostComponent =>
                  ({ componentName := hostComponent.HostRoles.component_name,
                     hostName := host.Hosts.host_name } : HostComponentRef))))
                (env.t "rollingrestart.context.allOnSelectedHosts") "HOST")
          else
            Outcome.restartHostComponents
              (items.flatMap (fun host => host.host_components.map (fun hostComponent =>
                ({ componentName := hostComponent.HostRoles.component_name,
                   hostName := host.Hosts.host_name } : HostComponentRef))))
              (env.t "rollingrestart.context.allOnSelectedHosts") "HOST"
        else
          Outcome.restartHostComponents
            (items.flatMap (fun host => host.host_components.map (fun hostComponent =>
              ({ componentName := hostComponent.HostRoles.component_name,
                 hostName := host.Hosts.host_name } : HostComponentRef))))
            (env.t "rollingrestart.context.allOnSelectedHosts") "HOST") := by
  have key : ∀ (items : List HostJson) (acc : List HostComponentRef),
      items.foldl (fun acc host =>
        host.host_components.foldl (fun acc hostComponent =>
          acc ++ [({ componentName := hostComponent.HostRoles.component_name,
                     hostName := host.Hosts.host_name } : HostComponentRef)]) acc) acc
      = acc ++ items.flatMap (fun host => host.host_components.map (fun hostComponent =>
          ({ componentName := hostComponent.HostRoles.component_name,
             hostName := host.Hosts.host_name } : HostComponentRef))) := by
    intro items
    induction items with
    | nil => intro acc; simp
    | cons host items ih =>
      intro acc
      rw [List.foldl_cons, foldl_push_map, ih]
      simp [List.flatMap_cons]
  have hkey := key items []
  rw [List.nil_append] at hkey
  have hst : (some "STARTED" = (env.service (some "HDFS")).workStatus)
      ↔ ((env.service (some "HDFS")).workStatus = some "STARTED") := eq_comm
  simp only [_getComponentsFromServerForRestartCallback, hkey]
  by_cases hs : (env.service (some "HDFS")).workStatus = some "STARTED"
  · simp [hs]
  · simp [hs, hst]

/-! ## Theorems on the generic host state-change and the host restart -/

/-- C14, counterexample: with HDFS started and exactly one NameNode in scope, the generic host
callback for the action `STARTED` sends the update request directly, with no checkpoint
check. -/
theorem hostsCallback_start_skips_checkpoint_check :
    _getComponentsFromServerForHostsCallback Env.hdfsStarted
        { action := "STARTED", componentName := none, realComponentName := none,
          componentNameFormatted := none, serviceName := none, message := "Start All",
          state := none }
        { items := some [HostJson.single "h1" "NAMENODE" (some "INSTALLED")] }
      = hostsUpdateRequest Env.hdfsStarted
          { action := "STARTED", componentName := none, realComponentName := none,
            componentNameFormatted := none, serviceName := none, message := "Start All",
            state := none }
          "(HostRoles/component_name.in(NAMENODE)&HostRoles/host_name=h1)" "h1" := by
  decide

/-- C14, amended: in the generic host callback, when a request is built, the request is handed
to the single-NameNode checkpoint check, with the host of the NameNode, if the action is
`INSTALLED`, HDFS is started and exactly one host carries a NameNode; to the HA checkpoint
check if the action is `INSTALLED`, HDFS is started and exactly two hosts carry one; and is
sent directly in every other case, in particular for every other action. In the host restart
callback the restart is handed to the single-NameNode check if HDFS is started and exactly one
NameNode is returned, to the HA check if HDFS is started and exactly two are returned, and
runs directly otherwise. -/
theorem checkpoint_check_gate (env : Env) (operationData : OperationData)
    (items : List HostJson) :
    (hostsWithComponents env.clients items ≠ [] →
      _getComponentsFromServerForHostsCallback env operationData { items := some items }
        = (if operationData.action = "INSTALLED" ∧
              (env.service (some "HDFS")).workStatus = some "STARTED" then
            if ((hostsWithComponents env.clients items).filter
                (fun h => (componentsOf env.clients items h).contains "NAMENODE")).length = 1
            then
              Outcome.checkNnLastCheckpointTime
                (hostsUpdateRequest env operationData
                  (join ((hostsWithComponents env.clients items).map
                    (fun h => subQuery h (componentsOf env.clients items h))) "|")
                  (join (hostsWithComponents env.clients items) ","))
                ((hostsWithComponents env.clients items).filter
                  (fun h => (componentsOf env.clients items h).contains "NAMENODE"))[0]?
            else if ((hostsWithComponents env.clients items).filter
                (fun h => (componentsOf env.clients items h).contains "NAMENODE")).length = 2
            then
              Outcome.checkNnLastCheckpointTimeHA
                (hostsUpdateRequest env operationData
                  (join ((hostsWithComponents env.clients items).map
                    (fun h => subQuery h (componentsOf env.clients items h))) "|")
                  (join (hostsWithComponents env.clients items) ","))
            else
              hostsUpdateRequest env operationData
                (join ((hostsWithComponents env.clients items).map
                  (fun h => subQuery h (componentsOf env.clients items h))) "|")
                (join (hostsWithComponents env.clients items) ",")
          else
            hostsUpdateRequest env operationData
              (join ((hostsWithComponents env.clients items).map
                (fun h => subQuery h (componentsOf env.clients items h))) "|")
              (join (hostsWithComponents env.clients items) ",")))
    ∧ _getComponentsFromServerForRestartCallback env { items := some items }
      = (if (env.service (some "HDFS")).workStatus = some "STARTED" then
          if ((items.flatMap (fun host => host.host_components.map (fun hostComponent =>
                ({ componentName := hostComponent.HostRoles.component_name,
                   hostName := host.Hosts.host_name } : HostComponentRef)))).filter
              (fun c => c.componentName = "NAMENODE")).length = 1 then
            Outcome.checkNnLastCheckpointTime
              (Outcome.restartHostComponents
                (items.flatMap (fun host => host.host_components.map (fun hostComponent =>
                  ({ componentName := hostComponent.HostRoles.component_name,
                     hostName := host.Hosts.host_name } : HostComponentRef))))
                (env.t "rollingrestart.context.allOnSelectedHosts") "HOST")
              (((items.flatMap (fun host => host.host_components.map (fun hostComponent =>
                ({ componentName := hostComponent.HostRoles.component_name,
                   hostName := host.Hosts.host_name } : HostComponentRef)))).filter
                (fun c => c.componentName = "NAMENODE")).head?.map (fun c => c.hostName))
          else if ((items.flatMap (fun host => host.host_components.map (fun hostComponent =>
                ({ componentName := hostComponent.HostRoles.component_name,
                   hostName := host.Hosts.host_name } : HostComponentRef)))).filter
              (fun c => c.componentName = "NAMENODE")).length = 2 then
            Outcome.checkNnLastCheckpointTimeHA
              (Outcome.restartHostComponents
                (items.flatMap (fun host => host.host_components.map (fun hostComponent =>
                  ({ componentName := hostComponent.HostRoles.component_name,
                     hostName := host.Hosts.host_name } : HostComponentRef))))
                (env.t "rollingrestart.context.allOnSelectedHosts") "HOST")
          else
            Outcome.restartHostComponents
              (items.flatMap (fun host => host.host_components.map (fun hostComponent =>
                ({ componentName := hostComponent.HostRoles.component_name,
                   hostName := host.Hosts.host_name } : HostComponentRef))))
              (env.t "rollingrestart.context.allOnSelectedHosts") "HOST"
        else
          Outcome.restartHostComponents
            (items.flatMap (fun host => host.host_components.map (fun hostComponent =>
              ({ componentName := hostComponent.HostRoles.component_name,
                 hostName := host.Hosts.host_name } : HostComponentRef))))
            (env.t "rollingrestart.context.allOnSelectedHosts") "HOST") := by
  refine ⟨?_, restartCallback_eq env items⟩
  intro hne
  rw [hostsCallback_eq, if_neg hne]

/-- C20: for every response whose host names are ordinary strings, when at least one host
has a non-client component the generic host callback builds the request
`common.host_components.update`, sent directly or handed to a checkpoint check, whose `query`
is the `|`-join, in response order, of one subquery
`(HostRoles/component_name.in(c1,...,cn)&HostRoles/host_name=h)` per such host `h`, with
`c1..cn` the non-client components of `h` in response order; when no host has one, no request
is built; and hosts `h1` and `h2` each carrying only `DATANODE` give the query of the
example. -/
theorem hostsCallback_filter_query (env : Env) (operationData : OperationData)
    (items : List HostJson)
    (_hnames : ∀ host ∈ items, ordinaryHostName host.Hosts.host_name = true) :
    let hosts := hostsWithComponents env.clients items
    let query :=
      join (hosts.map (fun h =>
        "(HostRoles/component_name.in(" ++ join (componentsOf env.clients items h) "," ++
          ")&HostRoles/host_name=" ++ h ++ ")")) "|"
    let request : Outcome :=
      Outcome.ajaxSend
        { name := "common.host_components.update"
          data :=
            [("query", Val.str query),
             ("HostRoles", Val.obj [("state", operationData.action)]),
             ("context", Val.str operationData.message),
             ("hostName", Val.str (join hosts ",")),
             ("noOpsMessage", Val.str (env.t "hosts.host.maintainance.allComponents.context"))]
          success := some "bulkOperationForHostComponentsSuccessCallback"
          error := none
          showLoadingPopup := false }
    (hosts ≠ [] →
      _getComponentsFromServerForHostsCallback env operationData { items := some items }
        ∈ [request,
           Outcome.checkNnLastCheckpointTime request
             (hosts.filter
               (fun h => (componentsOf env.clients items h).contains "NAMENODE"))[0]?,
           Outcome.checkNnLastCheckpointTimeHA request])
    ∧ (hosts = [] →
      _getComponentsFromServerForHostsCallback env operationData { items := some items }
        = Outcome.modalPopup (env.t "rolling.nothingToDo.header")
            (env.format (env.t "rolling.nothingToDo.body")
              [env.t "hosts.host.maintainance.allComponents.context"]))
    ∧ _getComponentsFromServerForHostsCallback Env.sample
        { action := "STARTED", componentName := none, realComponentName := none,
          componentNameFormatted := none, serviceName := none, message := "Start All",
          state := none }
        { items := some [HostJson.single "h1" "DATANODE" (some "INSTALLED"),
                         HostJson.single "h2" "DATANODE" (some "INSTALLED")] }
      = Outcome.ajaxSend
          { name := "common.host_components.update"
            data :=
              [("query", Val.str
                  "(HostRoles/component_name.in(DATANODE)&HostRoles/host_name=h1)|(HostRoles/component_name.in(DATANODE)&HostRoles/host_name=h2)"),
               ("HostRoles", Val.obj [("state", "STARTED")]),
               ("context", Val.str "Start All"),
               ("hostName", Val.str "h1,h2"),
               ("noOpsMessage", Val.str "hosts.host.maintainance.allComponents.context")]
            success := some "bulkOperationForHostComponentsSuccessCallback"
            error := none
            showLoadingPopup := false } := by
  intro hosts query request
  have hreq : hostsUpdateRequest env operationData
      (join ((hostsWithComponents env.clients items).map
        (fun h => subQuery h (componentsOf env.clients items h))) "|")
      (join (hostsWithComponents env.clients items) ",") = request := rfl
  refine ⟨?_, ?_, by decide⟩
  · intro hne
    rw [hostsCallback_eq, if_neg hne, hreq]
    split
    · split
      · simp [hosts]
      · split
        · simp
        · simp
    · simp
  · intro he
    rw [hostsCallback_eq, if_pos he]
    rfl

/-- C20, at the hosts `h1: DATANODE, NAMENODE` and `h2: DATANODE`, for the action
`INSTALLED` with HDFS started: the request is handed to the checkpoint check for `h1`. -/
theorem hostsCallback_filter_query_witness :
    (∀ host ∈ [{ Hosts := { host_name := "h1", maintenance_state := none },
                 host_components :=
                   [{ HostRoles := { component_name := "DATANODE", state := none,
                                     stale_configs := none, maintenance_state := none } },
                    { HostRoles := { component_name := "HDFS_CLIENT", state := none,
                                     stale_configs := none, maintenance_state := none } },
                    { HostRoles := { component_name := "NAMENODE", state := none,
                                     stale_configs := none, maintenance_state := none } }] },
               HostJson.single "h2" "DATANODE" none],
        ordinaryHostName host.Hosts.host_name = true)
    ∧ _getComponentsFromServerForHostsCallback Env.hdfsStarted
        { action := "INSTALLED", componentName := none, realComponentName := none,
          componentNameFormatted := none, serviceName := none, message := "Stop All",
          state := none }
        { items := some
            [{ Hosts := { host_name := "h1", maintenance_state := none },
               host_components :=
                 [{ HostRoles := { component_name := "DATANODE", state := none,
                                   stale_configs := none, maintenance_state := none } },
                  { HostRoles := { component_name := "HDFS_CLIENT", state := none,
                                   stale_configs := none, maintenance_state := none } },
                  { HostRoles := { component_name := "NAMENODE", state := none,
                                   stale_configs := none, maintenance_state := none } }] },
             HostJson.single "h2" "DATANODE" none] }
      ∈ [Outcome.ajaxSend
            { name := "common.host_components.update"
              data :=
                [("query", Val.str
                    "(HostRoles/component_name.in(DATANODE,NAMENODE)&HostRoles/host_name=h1)|(HostRoles/component_name.in(DATANODE)&HostRoles/host_name=h2)"),
                 ("HostRoles", Val.obj [("state", "INSTALLED")]),
                 ("context", Val.str "Stop All"),
                 ("hostName", Val.str "h1,h2"),
                 ("noOpsMessage", Val.str "hosts.host.maintainance.allComponents.context")]
              success := some "bulkOperationForHostComponentsSuccessCallback"
              error := none
              showLoadingPopup := false },
         Outcome.checkNnLastCheckpointTime
            (Outcome.ajaxSend
              { name := "common.host_components.update"
                data :=
                  [("query", Val.str
                      "(HostRoles/component_name.in(DATANODE,NAMENODE)&HostRoles/host_name=h1)|(HostRoles/component_name.in(DATANODE)&HostRoles/host_name=h2)"),
                   ("HostRoles", Val.obj [("state", "INSTALLED")]),
                   ("context", Val.str "Stop All"),
                   ("hostName", Val.str "h1,h2"),
                   ("noOpsMessage", Val.str "hosts.host.maintainance.allComponents.context")]
                success := some "bulkOperationForHostComponentsSuccessCallback"
                error := none
                showLoadingPopup := false })
            (some "h1"),
         Outcome.checkNnLastCheckpointTimeHA
            (Outcome.ajaxSend
              { name := "common.host_components.update"
                data :=
                  [("query", Val.str
                      "(HostRoles/component_name.in(DATANODE,NAMENODE)&HostRoles/host_name=h1)|(HostRoles/component_name.in(DATANODE)&HostRoles/host_name=h2)"),
                   ("HostRoles", Val.obj [("state", "INSTALLED")]),
                   ("context", Val.str "Stop All"),
                   ("hostName", Val.str "h1,h2"),
                   ("noOpsMessage", Val.str "hosts.host.maintainance.allComponents.context")]
                success := some "bulkOperationForHostComponentsSuccessCallback"
                error := none
                showLoadingPopup := false })] :=
  ⟨by decide,
    (hostsCallback_filter_query Env.hdfsStarted
      { action := "INSTALLED", componentName := none, realComponentName := none,
        componentNameFormatted := none, serviceName := none, message := "Stop All",
        state := none }
      [{ Hosts := { host_name := "h1", maintenance_state := none },
         host_components :=
           [{ HostRoles := { component_name := "DATANODE", state := none,
                             stale_configs := none, maintenance_state := none } },
            { HostRoles := { component_name := "HDFS_CLIENT", state := none,
                             stale_configs := none, maintenance_state := none } },
            { HostRoles := { component_name := "NAMENODE", state := none,
                             stale_configs := none, maintenance_state := none } }] },
       HostJson.single "h2" "DATANODE" none]
      (by decide)).1 (by decide)⟩

/-! ## Theorems on the host restart, the passive state, the add and the recommission -/

/-- C21, counterexample: for a response whose only host-component is the client
`HDFS_CLIENT` on `h1`, the host restart callback hands that client to
`restartHostComponents`. -/
theorem restartCallback_keeps_clients :
    "HDFS_CLIENT" ∈ Env.hdfsStarted.clients
    ∧ _getComponentsFromServerForRestartCallback Env.hdfsStarted
        { items := some [HostJson.single "h1" "HDFS_CLIENT" (some "INSTALLED")] }
      = Outcome.restartHostComponents [{ componentName := "HDFS_CLIENT", hostName := "h1" }]
          "rollingrestart.context.allOnSelectedHosts" "HOST" := by
  constructor <;> decide

/-- C21, amended: the list of host-components that the host restart callback hands to
`restartHostComponents`, directly or behind a checkpoint check, contains exactly the returned
host-components, client components included, host by host in response order. -/
theorem restartCallback_restarts_all_returned (env : Env) (items : List HostJson) :
    _getComponentsFromServerForRestartCallback env { items := some items }
      ∈ [Outcome.restartHostComponents
            (items.flatMap (fun host => host.host_components.map (fun hostComponent =>
              ({ componentName := hostComponent.HostRoles.component_name,
                 hostName := host.Hosts.host_name } : HostComponentRef))))
            (env.t "rollingrestart.context.allOnSelectedHosts") "HOST",
         Outcome.checkNnLastCheckpointTime
            (Outcome.restartHostComponents
              (items.flatMap (fun host => host.host_components.map (fun hostComponent =>
                ({ componentName := hostComponent.HostRoles.component_name,
                   hostName := host.Hosts.host_name } : HostComponentRef))))
              (env.t "rollingrestart.context.allOnSelectedHosts") "HOST")
            (((items.flatMap (fun host => host.host_components.map (fun hostComponent =>
              ({ componentName := hostComponent.HostRoles.component_name,
                 hostName := host.Hosts.host_name } : HostComponentRef)))).filter
              (fun c => c.componentName = "NAMENODE")).head?.map (fun c => c.hostName)),
         Outcome.checkNnLastCheckpointTimeHA
            (Outcome.restartHostComponents
              (items.flatMap (fun host => host.host_components.map (fun hostComponent =>
                ({ componentName := hostComponent.HostRoles.component_name,
                   hostName := host.Hosts.host_name } : HostComponentRef))))
              (env.t "rollingrestart.context.allOnSelectedHosts") "HOST")]
    ∧ ∀ c : HostComponentRef,
        c ∈ items.flatMap (fun host => host.host_components.map (fun hostComponent =>
            ({ componentName := hostComponent.HostRoles.component_name,
               hostName := host.Hosts.host_name } : HostComponentRef)))
        ↔ ∃ host ∈ items, ∃ hostComponent ∈ host.host_components,
            c = { componentName := hostComponent.HostRoles.component_name,
                  hostName := host.Hosts.host_name } := by
  constructor
  · rw [restartCallback_eq]
    split
    · split
      · simp
      · split
        · simp
        · simp
    · simp
  · intro c
    simp only [List.mem_flatMap, List.mem_map]
    constructor
    · rintro ⟨host, hh, hc, hhc, rfl⟩
      exact ⟨host, hh, hc, hhc, rfl⟩
    · rintro ⟨host, hh, hc, hhc, rfl⟩
      exact ⟨host, hh, hc, hhc, rfl⟩

theorem foldl_passiveState (state : Option String) (items : List HostJson)
    (acc : List String) :
    items.foldl (fun hostNames host =>
        if host.Hosts.maintenance_state ≠ state then hostNames ++ [host.Hosts.host_name]
        else hostNames) acc
      = acc ++ (items.filter (fun host => host.Hosts.maintenance_state ≠ state)).map
          (fun host => host.Hosts.host_name) := by
  induction items generalizing acc with
  | nil => simp
  | cons host items ih =>
    rw [List.foldl_cons, ih]
    by_cases h : host.Hosts.maintenance_state = state
    · simp [List.filter_cons, h]
    · simp [List.filter_cons, h]

/-- C22: for the passive-state toggle, the host names sent are the returned hosts whose
`maintenance_state` differs from the requested state, in response order, comma-joined; the
request `bulk_request.hosts.passive_state` is sent when that list is not empty, and otherwise
the "nothing to do" popup is shown and no request is sent. -/
theorem passiveStateCallback_hosts (env : Env) (operationData : OperationData)
    (items : List HostJson) :
    _getComponentsFromServerForPassiveStateCallback env operationData { items := some items }
      = (if (items.filter
            (fun host => host.Hosts.maintenance_state ≠ operationData.state)).map
            (fun host => host.Hosts.host_name) = [] then
          nothingToDo env (env.t "hosts.bulkOperation.passiveState.nothingToDo.body")
        else
          Outcome.ajaxSend
            { name := "bulk_request.hosts.passive_state"
              data :=
                [("hostNames", Val.str (join ((items.filter
                    (fun host => host.Hosts.maintenance_state ≠ operationData.state)).map
                    (fun host => host.Hosts.host_name)) ",")),
                 ("passive_state", Val.ofOption operationData.state),
                 ("requestInfo", Val.str operationData.message)]
              success := some "updateHostPassiveState"
              error := none
              showLoadingPopup := false })
    ∧ ∀ r : Responses,
        (nothingToDo env
          (env.t "hosts.bulkOperation.passiveState.nothingToDo.body")).requests r = [] := by
  constructor
  · have hfold := foldl_passiveState operationData.state items []
    rw [List.nil_append] at hfold
    simp only [_getComponentsFromServerForPassiveStateCallback, hfold]
    by_cases hn : (items.filter
        (fun host => host.Hosts.maintenance_state ≠ operationData.state)).map
        (fun host => host.Hosts.host_name) = []
    · have hlen : ¬ ((items.filter
          (fun host => host.Hosts.maintenance_state ≠ operationData.state)).map
          (fun host => host.Hosts.host_name)).length ≠ 0 := by
        rw [hn]
        simp
      rw [if_neg hlen, if_pos hn]
    · have hlen : ((items.filter
          (fun host => host.Hosts.maintenance_state ≠ operationData.state)).map
          (fun host => host.Hosts.host_name)).length ≠ 0 :=
        fun h => hn (List.length_eq_zero.1 h)
      rw [if_pos hlen, if_neg hn]
  · intro r
    rfl

/-- C23: in the add-component callback the selected host names are split into
`hostsWithComponent`, those the read query returned, and `hostsWithOutComponent`, all the
others; the two lists are disjoint, keep the order of the selection and together cover it;
the confirmation offers `bulkAddHostComponents` on exactly `hostsWithOutComponent`, whose only
request is the add for those hosts; and when `hostsWithOutComponent` is empty the "nothing to
do" popup is shown and no request is sent. -/
theorem addCallback_partition (env : Env) (operationData : OperationData)
    (items : List HostJson) (hosts : List Host) :
    let selection := hosts.map (fun h => h.hostName)
    let returned := items.map (fun h => h.Hosts.host_name)
    let hostsWithComponent := selection.filter (fun host => returned.contains host)
    let hostsWithOutComponent := selection.filter (fun host => !returned.contains host)
    _getComponentsFromServerForHostComponentsAddCallback env operationData
        { items := some items } hosts
      = (if hostsWithOutComponent = [] then
          nothingToDo env
            (env.format
              (env.t "hosts.bulkOperation.confirmation.add.component.nothingToDo.body")
              [jsString operationData.componentNameFormatted])
        else
          Outcome.addConfirmPopup
            (env.t "hosts.bulkOperation.confirmation.header")
            (join hostsWithOutComponent "\n")
            (_showHostNames env hostsWithOutComponent "\n" 3)
            (_showHostNames env hostsWithComponent "\n" 3)
            (if hostsWithComponent = [] then none else some (join hostsWithComponent "\n"))
            (env.format (env.t "hosts.bulkOperation.confirmation.add.component")
              [operationData.message, jsString operationData.componentNameFormatted,
               toString hostsWithOutComponent.length])
            (env.format (env.t "hosts.bulkOperation.confirmation.add.component.skip")
              [jsString operationData.componentNameFormatted])
            (bulkAddHostComponents operationData hostsWithOutComponent))
    ∧ (∀ host, host ∈ hostsWithComponent → host ∉ hostsWithOutComponent)
    ∧ (∀ host ∈ selection, host ∈ hostsWithComponent ∨ host ∈ hostsWithOutComponent)
    ∧ hostsWithComponent.Sublist selection
    ∧ hostsWithOutComponent.Sublist selection
    ∧ hostsWithComponent.length + hostsWithOutComponent.length = selection.length
    ∧ (∀ r : Responses,
        (bulkAddHostComponents operationData hostsWithOutComponent).requests r
          = if r.sessionState = true then
              [{ name := "host.host_component.add_new_components"
                 data :=
                   [("data", Val.stringify
                      { query := "Hosts/host_name.in(" ++ join hostsWithOutComponent "," ++ ")"
                        component_name := operationData.componentName }),
                    ("context", Val.str (operationData.message ++ " " ++
                      jsString operationData.componentNameFormatted))]
                 success := some "bulkOperationForHostComponentsAddSuccessCallback"
                 error := none
                 showLoadingPopup := true }]
            else [])
    ∧ (∀ r : Responses,
        (nothingToDo env
          (env.format
            (env.t "hosts.bulkOperation.confirmation.add.component.nothingToDo.body")
            [jsString operationData.componentNameFormatted])).requests r = []) := by
  intro selection returned hostsWithComponent hostsWithOutComponent
  have hwo : selection.filter (fun host => !hostsWithComponent.contains host)
      = hostsWithOutComponent := by
    apply List.filter_congr
    intro host hhost
    simp [hostsWithComponent, hhost]
  refine ⟨?_, ?_, ?_, List.filter_sublist _, List.filter_sublist _, ?_, ?_, fun _ => rfl⟩
  · simp only [_getComponentsFromServerForHostComponentsAddCallback]
    change (if (selection.filter (fun host => !hostsWithComponent.contains host)).length ≠ 0
      then _ else _) = _
    rw [hwo]
    by_cases hn : hostsWithOutComponent = []
    · have hlen : ¬ hostsWithOutComponent.length ≠ 0 := by rw [hn]; simp
      rw [if_neg hlen, if_pos hn]
    · have hlen : hostsWithOutComponent.length ≠ 0 := fun h => hn (List.length_eq_zero.1 h)
      rw [if_pos hlen, if_neg hn]
      by_cases hw : hostsWithComponent = []
      · have hwl : ¬ hostsWithComponent.length ≠ 0 := by rw [hw]; simp
        rw [if_neg hwl, if_pos hw]
      · have hwl : hostsWithComponent.length ≠ 0 := fun h => hw (List.length_eq_zero.1 h)
        rw [if_pos hwl, if_neg hw]
  · intro host h1 h2
    simp only [hostsWithComponent, hostsWithOutComponent, List.mem_filter] at h1 h2
    have hin : host ∈ returned := by simpa using h1.2
    have hout : host ∉ returned := by simpa using h2.2
    exact hout hin
  · intro host hhost
    by_cases hr : returned.contains host = true
    · exact Or.inl (List.mem_filter.2 ⟨hhost, hr⟩)
    · exact Or.inr (List.mem_filter.2 ⟨hhost, by simpa using hr⟩)
  · simp only [hostsWithComponent, hostsWithOutComponent]
    induction selection with
    | nil => rfl
    | cons x xs ih =>
      by_cases hx : returned.contains x = true
      · simp only [List.filter_cons, hx, if_true, Bool.not_true, Bool.false_eq_true, if_false,
          List.length_cons] at ih ⊢
        omega
      · simp only [Bool.not_eq_true] at hx
        simp only [List.filter_cons, hx, Bool.false_eq_true, if_false, Bool.not_false, if_true,
          List.length_cons] at ih ⊢
        omega
  · intro r
    cases hs : r.sessionState <;> simp [bulkAddHostComponents, Outcome.requests, hs]

/-- C24: for every recommission-polarity request (its action contains `OFF`) with a non-empty
list of snapshots, the callback calls `doRecommissionAndStart` once, with the comma-joined
host names of all the snapshots, the service name, the master component name and the slave
component name, when the service is YARN, HBASE or HDFS; for every other service it does
nothing and sends no request. -/
theorem recommission_delegates (env : Env) (operationData : OperationData)
    (items : List HostJson)
    (hpolarity : indexOf operationData.action "OFF" ≠ -1)
    (hsnapshots : decommissionComponents items ≠ []) :
    _getComponentsFromServerForHostComponentsDecommissionCallBack env operationData
        { items := some items }
      = (if operationData.serviceName = some "YARN" ∨ operationData.serviceName = some "HBASE" ∨
            operationData.serviceName = some "HDFS" then
          Outcome.doRecommissionAndStart
            (join ((decommissionComponents items).map (fun c => c.hostName)) ",")
            operationData.serviceName operationData.componentName
            operationData.realComponentName
        else Outcome.noEffect)
    ∧ ∀ r : Responses, Outcome.noEffect.requests r = [] := by
  have hlen : (decommissionComponents items).length ≠ 0 :=
    fun h => hsnapshots (List.length_eq_zero.1 h)
  refine ⟨?_, fun _ => rfl⟩
  simp only [_getComponentsFromServerForHostComponentsDecommissionCallBack, hlen, hpolarity,
    ne_eq, not_false_eq_true, decide_True, if_true]

/-- C24, at the action `DECOMMISSION_OFF` on HDFS with the snapshots `h1, h2`. -/
theorem recommission_delegates_witness :
    _getComponentsFromServerForHostComponentsDecommissionCallBack Env.sample
        { action := "DECOMMISSION_OFF", componentName := some "NAMENODE",
          realComponentName := some "DATANODE", componentNameFormatted := some "DataNodes",
          serviceName := some "HDFS", message := "Recommission", state := none }
        { items := some [HostJson.single "h1" "DATANODE" (some "STARTED"),
                         HostJson.single "h2" "DATANODE" (some "INSTALLED")] }
      = Outcome.doRecommissionAndStart "h1,h2" (some "HDFS") (some "NAMENODE")
          (some "DATANODE")
    ∧ ∀ r : Responses, Outcome.noEffect.requests r = [] :=
  recommission_delegates Env.sample
    { action := "DECOMMISSION_OFF", componentName := some "NAMENODE",
      realComponentName := some "DATANODE", componentNameFormatted := some "DataNodes",
      serviceName := some "HDFS", message := "Recommission", state := none }
    [HostJson.single "h1" "DATANODE" (some "STARTED"),
     HostJson.single "h2" "DATANODE" (some "INSTALLED")]
    (by decide) (by decide)

/-- C26: `_showHostNames` returns all the host names joined by the divider when there are at
most `minShown` of them, and otherwise the first `minShown` host names joined by the divider,
then the divider, then the message `installer.step8.other` formatted with the number of host
names not shown. -/
theorem showHostNames_spec (env : Env) (hostNames : List String) (divider : String)
    (minShown : Nat) :
    (hostNames.length ≤ minShown →
      _showHostNames env hostNames divider minShown = join hostNames divider)
    ∧ (minShown < hostNames.length →
      _showHostNames env hostNames divider minShown
        = join (hostNames.take minShown) divider ++ divider ++
            env.format (env.t "installer.step8.other")
              [toString (hostNames.length - minShown)]
      ∧ (hostNames.take minShown).length = minShown
      ∧ (hostNames.take minShown).length + (hostNames.length - minShown)
        = hostNames.length) := by
  unfold _showHostNames
  constructor
  · intro h
    rw [if_neg (by omega)]
  · intro h
    rw [if_pos (by omega)]
    refine ⟨rfl, ?_, ?_⟩
    · rw [List.length_take]; omega
    · rw [List.length_take]; omega

/-- C25: every request `bulk_request.decommission` that the decommission callback sends is
sent for an action that does not contain `OFF`; its parameters are `slave_type` and
`excluded_hosts`, with no `included_hosts`, and its context is the `.decommission` key of the
slave component. -/
theorem decommission_request_never_included_hosts (env : Env) (operationData : OperationData)
    (data : ComponentsResponse) (request : AjaxRequest)
    (hsent : _getComponentsFromServerForHostComponentsDecommissionCallBack env operationData data
      = Outcome.ajaxSend request)
    (hname : request.name = "bulk_request.decommission") :
    indexOf operationData.action "OFF" = -1
    ∧ ∃ slave excluded,
        operationData.realComponentName = some slave
        ∧ request.data =
          [("context", Val.str (env.t ("hosts.host." ++ toLowerCase slave ++ ".decommission"))),
           ("serviceName", Val.ofOption (env.service operationData.serviceName).serviceName),
           ("componentName", Val.ofOption operationData.componentName),
           ("parameters", Val.obj [("slave_type", slave), ("excluded_hosts", excluded)]),
           ("noOpsMessage", Val.ofOption operationData.componentNameFormatted)] := by
  obtain ⟨items⟩ := data
  cases items with
  | none => simp [_getComponentsFromServerForHostComponentsDecommissionCallBack] at hsent
  | some items =>
    by_cases hlen : (decommissionComponents items).length ≠ 0
    · by_cases hoff : indexOf operationData.action "OFF" = -1
      · refine ⟨hoff, ?_⟩
        by_cases hsvc : operationData.serviceName = some "HBASE"
        · simp only [_getComponentsFromServerForHostComponentsDecommissionCallBack, hlen, hoff,
            hsvc, ne_eq, not_true_eq_false, not_false_eq_true, decide_False, decide_True,
            if_true, if_false, Bool.false_eq_true, warnBeforeDecommission,
            Outcome.ajaxSend.injEq] at hsent
          rw [← hsent] at hname
          have hne : "host_components.hbase_regionserver.active" ≠ "bulk_request.decommission" :=
            by decide
          exact absurd hname hne
        · cases hslave : operationData.realComponentName with
          | none =>
            simp [_getComponentsFromServerForHostComponentsDecommissionCallBack, hlen, hoff,
              hsvc, hslave] at hsent
          | some slave =>
            simp only [_getComponentsFromServerForHostComponentsDecommissionCallBack, hlen,
              hoff, hsvc, hslave, ne_eq, not_true_eq_false, not_false_eq_true, decide_False,
              decide_True, if_true, if_false, Bool.false_eq_true, List.cons_append,
              List.nil_append, Outcome.ajaxSend.injEq] at hsent
            refine ⟨slave,
              join (((decommissionComponents items).filter
                (fun c => c.workStatus = some "STARTED")).map (fun c => c.hostName)) ",",
              rfl, ?_⟩
            rw [← hsent]
      · exfalso
        simp only [_getComponentsFromServerForHostComponentsDecommissionCallBack, hlen, hoff,
          ne_eq, not_false_eq_true, decide_True, if_true] at hsent
        split at hsent <;> simp at hsent
    · simp [_getComponentsFromServerForHostComponentsDecommissionCallBack, hlen,
        nothingToDo] at hsent

/-- C25, at the decommission of `DATANODE` on HDFS with the snapshots `h1: STARTED,
h2: INSTALLED`. -/
theorem decommission_request_never_included_hosts_witness :
    indexOf "DECOMMISSION" "OFF" = -1
    ∧ ∃ slave excluded,
        some "DATANODE" = some slave
        ∧ [("context", Val.str "hosts.host.datanode.decommission"),
           ("serviceName", Val.undefined),
           ("componentName", Val.str "NAMENODE"),
           ("parameters", Val.obj [("slave_type", "DATANODE"), ("excluded_hosts", "h1")]),
           ("noOpsMessage", Val.str "DataNodes")] =
          [("context", Val.str ("hosts.host." ++ toLowerCase slave ++ ".decommission")),
           ("serviceName", Val.undefined),
           ("componentName", Val.str "NAMENODE"),
           ("parameters", Val.obj [("slave_type", slave), ("excluded_hosts", excluded)]),
           ("noOpsMessage", Val.str "DataNodes")] :=
  decommission_request_never_included_hosts Env.sample
    { action := "DECOMMISSION", componentName := some "NAMENODE",
      realComponentName := some "DATANODE", componentNameFormatted := some "DataNodes",
      serviceName := some "HDFS", message := "Decommission", state := none }
    { items := some [HostJson.single "h1" "DATANODE" (some "STARTED"),
                     HostJson.single "h2" "DATANODE" (some "INSTALLED")] }
    { name := "bulk_request.decommission"
      data :=
        [("context", Val.str "hosts.host.datanode.decommission"),
         ("serviceName", Val.undefined),
         ("componentName", Val.str "NAMENODE"),
         ("parameters", Val.obj [("slave_type", "DATANODE"), ("excluded_hosts", "h1")]),
         ("noOpsMessage", Val.str "DataNodes")]
      success := some "bulkOperationForHostComponentsSuccessCallback"
      error := none
      showLoadingPopup := false }
    (by decide) rfl

end Ambari
